import Mathlib

/-!
# Trust Union Bank front-end: session and credential reconciliation

A shallow embedding of the browser scripts `auth.js`, `chat.js`, `main.js` and
`dashboard.js` (directory `frontend/static/js`).  Every handler is an `async`
function that awaits at most one `fetch`; it is embedded as a pure function from the
page state, the user input and the outcome of that `fetch` to the next page state.
Requests that the handler issues are appended to a log kept in the state, so that
"no network call" is a statement about that log.  Handlers run one at a time: no other
handler runs while one awaits its `fetch`, and a write to a storage area succeeds.

Server bodies are typed after the backend contract (`session_id`, `access_token`,
`message`, ... are strings, `customer_id` is an integer, `success` is a boolean, and
every field may be absent); on each of these types the JavaScript notion of truthiness
is kept: `null`, `undefined`, `""`, `0`, `NaN` and `false` are falsy.

Numbers are doubles: an integer of the server is held as the nearest double and printed
as JavaScript prints it.  Strings are well-formed Unicode strings where the handlers
only compare, test for emptiness, concatenate, trim or parse them; where a handler
counts or cuts (`length`, `slice`, `substring`) the string is the list of its UTF-16
code units.
-/

namespace TrustUnionBank

/-! ## JavaScript values -/

/-- Truthiness of a value that is a string or `null`. -/
def truthy : Option String → Bool
  | some s => s != ""
  | none => false

/-- The expression `a || b` on values that are a string or `null`. -/
def jsOr (a b : Option String) : Option String :=
  if truthy a then a else b

/-- The expression `a || d` where `d` is a string literal. -/
def jsOrStr (a : Option String) (d : String) : String :=
  match a with
  | some s => if s != "" then s else d
  | none => d

/-! ### Numbers

A JavaScript number is a double.  The customer ids are integers, so the numbers of the
model are the doubles with an integer value, the two infinities and `NaN`.  An integer
that the server sends, or that `parseInt` reads, becomes the nearest double
(`roundToDouble`), and a number is printed with the fewest digits that read back as the
same double (`showDouble`), in exponent notation from `10^21` on. -/

/-- Number of binary digits of a natural number, by halving. -/
def bitLengthAux : Nat → Nat → Nat
  | 0, _ => 0
  | fuel + 1, m => if m = 0 then 0 else bitLengthAux fuel (m / 2) + 1

/-- Number of binary digits of a natural number. -/
def bitLength (m : Nat) : Nat := bitLengthAux m m

/-- The double nearest to a natural number, with 53 significant binary digits and a tie
going to the even significand; `none` stands for `Infinity`, reached from `2^1024` on.
Every integer up to `2^53` is a double. -/
def roundToDouble (m : Nat) : Option Nat :=
  if m ≤ 2 ^ 53 then some m
  else
    let e := bitLength m - 53
    let q := m / 2 ^ e
    let r := m % 2 ^ e
    let q' := if 2 ^ e < 2 * r ∨ (2 * r = 2 ^ e ∧ q % 2 = 1) then q + 1 else q
    if bitLength (q' * 2 ^ e) ≤ 1024 then some (q' * 2 ^ e) else none

/-- Number of decimal digits of a natural number. -/
def digitCount (m : Nat) : Nat := (Nat.toDigits 10 m).length

/-- Distance between two natural numbers. -/
def dist (a b : Nat) : Nat := if a ≤ b then b - a else a - b

/-- The decimal numbers `s * 10^p` with `k` significant digits (`10^(k-1) ≤ s < 10^k`)
that are next to the double `x` and read back as `x`, as pairs `(s, p)`. -/
def candidates (x k : Nat) : List (Nat × Nat) :=
  let d := digitCount x
  ([(x / 10 ^ (d - k), d - k), (x / 10 ^ (d - k) + 1, d - k),
    (x / 10 ^ (d - k + 1), d - k + 1), (x / 10 ^ (d - k + 1) + 1, d - k + 1)]).filter
    (fun c => decide (10 ^ (k - 1) ≤ c.1) && decide (c.1 < 10 ^ k) &&
      (roundToDouble (c.1 * 10 ^ c.2) == some x))

/-- Of two decimal numbers the one closer to `x`, the one with even `s` on a tie. -/
def closer (x : Nat) (a b : Nat × Nat) : Nat × Nat :=
  if dist (b.1 * 10 ^ b.2) x < dist (a.1 * 10 ^ a.2) x ∨
      (dist (b.1 * 10 ^ b.2) x = dist (a.1 * 10 ^ a.2) x ∧ b.1 % 2 = 0 ∧ a.1 % 2 = 1)
  then b else a

/-- The decimal number of a list that is closest to `x`. -/
def closest (x : Nat) : List (Nat × Nat) → Option (Nat × Nat)
  | [] => none
  | c :: cs => some (cs.foldl (closer x) c)

/-- The first number of significant digits, among those listed, for which a decimal
number reads back as `x`, with the closest such number; `x` itself when there is none. -/
def shortestFrom (x : Nat) : List Nat → Nat × Nat
  | [] => (x, 0)
  | k :: ks =>
    match closest x (candidates x k) with
    | some c => c
    | none => shortestFrom x ks

/-- The shortest decimal number `(s, p)` that reads back as the double `x`; seventeen
significant digits always suffice. -/
def shortestDigits (x : Nat) : Nat × Nat := shortestFrom x (List.range' 1 17)

/-- The conversion `String(x)` of a double `x` above `2^53`: the digits of the shortest
decimal number `s * 10^p` followed by `p` zeros when that makes at most 21 digits, else
the exponent notation `d.ddde+n`. -/
def showDouble (x : Nat) : String :=
  let c := shortestDigits x
  let ds := Nat.toDigits 10 c.1
  let n := ds.length + c.2
  if n ≤ 21 then ⟨ds ++ List.replicate c.2 '0'⟩
  else
    match ds with
    | [] => ""
    | [d] => ⟨d :: 'e' :: '+' :: Nat.toDigits 10 (n - 1)⟩
    | d :: rest => ⟨d :: '.' :: (rest ++ 'e' :: '+' :: Nat.toDigits 10 (n - 1))⟩

/-- The values taken by the customer id variables: `null`, `undefined`, `NaN`, an
infinity, or the double with the integer value `n`. -/
inductive JsNum where
  | null
  | undefined
  | nan
  | infinity (negative : Bool)
  | num (n : Int)
  deriving DecidableEq, Repr

namespace JsNum

/-- The number that JavaScript holds for an integer: the nearest double, or an
infinity. -/
def ofInt (c : Int) : JsNum :=
  match roundToDouble c.natAbs with
  | some v => num (if c < 0 then -(v : Int) else (v : Int))
  | none => infinity (decide (c < 0))

/-- Truthiness of a customer id value: a number other than zero and `NaN` is truthy. -/
def truthy : JsNum → Bool
  | num n => n != 0
  | infinity _ => true
  | _ => false

/-- The conversion `String(v)`, also what `v.toString()` gives on a number: up to `2^53`
the decimal digits of the integer, above it the shortest digits that read back. -/
def toStr : JsNum → String
  | null => "null"
  | undefined => "undefined"
  | nan => "NaN"
  | infinity false => "Infinity"
  | infinity true => "-Infinity"
  | num n =>
    if n.natAbs ≤ 2 ^ 53 then toString n
    else if n < 0 then "-" ++ showDouble n.natAbs
    else showDouble n.natAbs

end JsNum

/-- White space and line terminators skipped by `trim` and `parseInt`. -/
def isJsSpace (c : Char) : Bool :=
  c == ' ' || c == '\t' || c == '\n' || c == '\r' || c.toNat == 11 || c.toNat == 12 ||
  c.toNat == 160 || c.toNat == 65279 || c.toNat == 5760 ||
  (8192 ≤ c.toNat && c.toNat ≤ 8202) || c.toNat == 8232 || c.toNat == 8233 ||
  c.toNat == 8239 || c.toNat == 8287 || c.toNat == 12288

/-- The method `String.prototype.trim`. -/
def jsTrim (s : String) : String :=
  ⟨((s.data.dropWhile isJsSpace).reverse.dropWhile isJsSpace).reverse⟩

/-! ### Strings as UTF-16 code units

`length`, `slice` and `substring` count the UTF-16 code units of a string: a character
of the basic plane is one unit, any other character is a pair of surrogates, and a slice
may cut such a pair.  Where a handler counts or cuts, the string is the list of its
code units. -/

/-- The UTF-16 code units of a character. -/
def charUnits (c : Char) : List Nat :=
  if c.toNat < 65536 then [c.toNat]
  else [55296 + (c.toNat - 65536) / 1024, 56320 + (c.toNat - 65536) % 1024]

/-- The UTF-16 code units of a list of characters. -/
def unitsOf : List Char → List Nat
  | [] => []
  | c :: cs => charUnits c ++ unitsOf cs

/-- The UTF-16 code units of a string. -/
def utf16 (s : String) : List Nat := unitsOf s.data

/-- The method `String.prototype.slice(start)` with one argument, on code units; a
negative `start` counts from the end. -/
def jsSlice (s : List Nat) (start : Int) : List Nat :=
  let len : Int := s.length
  let first : Int := if start < 0 then max (len + start) 0 else min start len
  s.drop first.toNat

/-- Value of a run of digits in the given radix, most significant first. -/
def digitsValue (radix : Nat) (ds : List Nat) : Nat :=
  ds.foldl (fun acc d => radix * acc + d) 0

/-- Value of a character as a digit of the given radix, if it is one. -/
def digitOf (radix : Nat) (c : Char) : Option Nat :=
  let v :=
    if '0' ≤ c ∧ c ≤ '9' then c.toNat - 48
    else if 'a' ≤ c ∧ c ≤ 'z' then c.toNat - 87
    else if 'A' ≤ c ∧ c ≤ 'Z' then c.toNat - 55
    else radix
  if v < radix then some v else none

/-- The longest leading run of digits of the given radix. -/
def leadingDigits (radix : Nat) : List Char → List Nat
  | [] => []
  | c :: cs =>
    match digitOf radix c with
    | some d => d :: leadingDigits radix cs
    | none => []

/-- Sign and remainder of the input of `parseInt` once leading white space is gone. -/
def splitSign : List Char → Bool × List Char
  | '-' :: cs => (true, cs)
  | '+' :: cs => (false, cs)
  | cs => (false, cs)

/-- The number read from the digits after the sign: `NaN` when there is no digit, else
the double nearest to the integer that the digits spell (every digit counts, as in the
engines; the language lets an engine read the digits after the twentieth as zeros). -/
def parseDigits (radix : Nat) (neg : Bool) (cs : List Char) : JsNum :=
  match leadingDigits radix cs with
  | [] => JsNum.nan
  | ds => JsNum.ofInt (if neg then -(digitsValue radix ds : Int) else (digitsValue radix ds : Int))

/-- The call `parseInt(s, 10)`. -/
def parseInt10 (s : String) : JsNum :=
  let p := splitSign (s.data.dropWhile isJsSpace)
  parseDigits 10 p.1 p.2

/-- The call `parseInt(s)` without a radix: a `0x` or `0X` start selects radix 16. -/
def parseIntAuto (s : String) : JsNum :=
  let p := splitSign (s.data.dropWhile isJsSpace)
  match p.2 with
  | '0' :: 'x' :: cs => parseDigits 16 p.1 cs
  | '0' :: 'X' :: cs => parseDigits 16 p.1 cs
  | cs => parseDigits 10 p.1 cs

/-! ## Web Storage and plain objects -/

namespace Assoc

/-- Lookup of a key in a list of entries. -/
def lookup (k : String) : List (String × String) → Option String
  | [] => none
  | (k', v) :: es => if k' = k then some v else lookup k es

/-- Overwrite the entry of a key, or append a new entry. -/
def insert (k v : String) : List (String × String) → List (String × String)
  | [] => [(k, v)]
  | (k', v') :: es => if k' = k then (k, v) :: es else (k', v') :: insert k v es

/-- Deletion of a key from a list of entries. -/
def erase (k : String) : List (String × String) → List (String × String)
  | [] => []
  | (k', v') :: es => if k' = k then erase k es else (k', v') :: erase k es

/-- The object spread `{...a, ...b}`: the entries of `b` are written over those of `a`. -/
def spread (a b : List (String × String)) : List (String × String) :=
  b.foldl (fun acc e => insert e.1 e.2 acc) a

end Assoc

/-- A Web Storage area (`localStorage` or `sessionStorage`): string keys, string values. -/
structure Storage where
  entries : List (String × String)
  deriving DecidableEq, Repr

namespace Storage

/-- The empty storage area. -/
def empty : Storage := ⟨[]⟩

/-- The method `getItem(key)`: the stored string, or `null`. -/
def getItem (s : Storage) (k : String) : Option String := Assoc.lookup k s.entries

/-- The method `setItem(key, value)`. -/
def setItem (s : Storage) (k v : String) : Storage := ⟨Assoc.insert k v s.entries⟩

/-- The method `removeItem(key)`. -/
def removeItem (s : Storage) (k : String) : Storage := ⟨Assoc.erase k s.entries⟩

end Storage

/-! ## Requests and responses -/

/-- The keys of `API_ENDPOINTS` that the handlers use; the table of URLs is declared
outside these files. -/
inductive Endpoint where
  | loginStart
  | loginVerify
  | sessionCreate
  | chat
  | userProfile
  deriving DecidableEq, Repr

/-- The object handed to `JSON.stringify` as request body, per endpoint. -/
inductive Payload where
  | none
  | loginStart (identifier : String)
  | loginVerify (customer_id : JsNum) (otp_code : String)
  | chat (message : String) (session_id : Option String) (customer_id : JsNum)
      (lang : String)
  deriving DecidableEq, Repr

/-- One call of `fetch`: endpoint, method, header object, whether
`credentials: "include"` is set, and body. -/
structure Request where
  endpoint : Endpoint
  method : String
  headers : List (String × String)
  credentials : Bool
  body : Payload
  deriving DecidableEq, Repr

/-- What `await resp.json()` gives: it rejects, or it is the JSON value `null`, or it is
a value whose fields are read.  A primitive other than `null` has no field, so it
behaves as an object with every field absent. -/
inductive Parsed (β : Type) where
  | throws
  | null
  | object (data : β)
  deriving DecidableEq, Repr

/-- What `await fetch(...)` gives: it rejects, or it is a response with its `ok` flag
and its body. -/
inductive Fetched (β : Type) where
  | throws
  | response (ok : Bool) (body : Parsed β)
  deriving DecidableEq, Repr

/-- Body of the login-start response. -/
structure LoginStartBody where
  success : Bool
  customer_id : Option Int
  message : Option String
  deriving DecidableEq, Repr

/-- Body of the login-verify response. -/
structure VerifyBody where
  success : Bool
  access_token : Option String
  refresh_token : Option String
  reason : Option String
  deriving DecidableEq, Repr

/-- Body of the session-create response. -/
structure SessionBody where
  session_id : Option String
  deriving DecidableEq, Repr

/-- Body of the chat response. -/
structure ChatBody where
  bot_response : Option String
  session_id : Option String
  lang : Option String
  deriving DecidableEq, Repr

/-- Body of the user-profile response. -/
structure ProfileBody where
  name : Option String
  customer_id : Option Int
  deriving DecidableEq, Repr

/-- A number field of a body read as a JavaScript value: `undefined` when absent, else
the double that `resp.json()` holds for the integer that the server wrote. -/
def fieldNum : Option Int → JsNum
  | some n => JsNum.ofInt n
  | none => JsNum.undefined

/-! ## Page state -/

/-- Everything the handlers read or write.

* `localStorage` is the durable store, `sessionStorage` the tab-scoped store;
* `customerIdForOTP` is the module variable of `auth.js`;
* `chatSessionId` is `this.sessionId` of the `ChatManager`, `windowSessionId` is
  `window.sessionId`;
* `customerId` and `currentLanguage` are the global variables of those names, declared
  outside these files; `windowAuthToken` and `windowCustomerId` are the properties
  that `handleOTPVerify` sets on `window`;
* `location` is `window.location.href`, the navigation target;
* `banner` is the message element that `showMessage` puts on top of the login form,
  with its text and its kind (`error` or `success`);
* `otpSection`, `userName` and `sessionLabel` are the elements of those ids, absent
  (`none`) or present with their visibility or text (the text of `sessionLabel` as
  UTF-16 code units); `chatInput` is the value of the
  chat input element; `chatLog` lists the bubbles that `addMessage` appended (text,
  sender) and `typing` tells whether the typing indicator is displayed;
* `requests` is the log of the calls of `fetch`, oldest first. -/
structure Page where
  localStorage : Storage
  sessionStorage : Storage
  customerIdForOTP : JsNum
  chatSessionId : Option String
  windowSessionId : Option String
  windowAuthToken : Option String
  windowCustomerId : Option String
  customerId : Option String
  currentLanguage : String
  location : String
  banner : Option (String × String)
  otpSection : Option Bool
  userName : Option String
  sessionLabel : Option (List Nat)
  chatInput : Option String
  chatLog : List (String × String)
  typing : Bool
  requests : List Request
  deriving DecidableEq, Repr

/-- A page state over the given stores with no variable set, no request issued and
every element present and empty. -/
def Page.blank (durable tab : Storage) : Page :=
  { localStorage := durable, sessionStorage := tab, customerIdForOTP := JsNum.null,
    chatSessionId := none, windowSessionId := none, windowAuthToken := none,
    windowCustomerId := none, customerId := none, currentLanguage := "en",
    location := "", banner := none, otpSection := some false, userName := some "",
    sessionLabel := some [], chatInput := some "", chatLog := [], typing := false,
    requests := [] }

/-- Modelled from the spec: `getAuthHeaders` is called by `chat.js` and `dashboard.js`
but declared outside these files.  Section 4.1 of the specification: it returns the
mapping with the single entry `Authorization: "Bearer " + accessToken` if a token
exists in the durable store, else an empty mapping, and never throws. -/
def getAuthHeaders (st : Page) : List (String × String) :=
  match st.localStorage.getItem "authToken" with
  | some t => [("Authorization", "Bearer " ++ t)]
  | none => []

/-- The call `fetch(...)`: the request is appended to the log. -/
def Page.fetch (st : Page) (r : Request) : Page :=
  { st with requests := st.requests ++ [r] }

/-! ## auth.js -/

/-- The function `showMessage(message, type)`: the message element already on the
form, if any, is removed and a new one is put on top (the form `.auth-form` is taken to
be on the page). -/
def showMessage (st : Page) (message type : String) : Page :=
  { st with banner := some (message, if type = "error" then "error" else "success") }

/-- The function `handleLoginStart` of `auth.js`, with the value of the `identifier`
field and the outcome of the `fetch`. -/
def handleLoginStart (st : Page) (identifier : String) (r : Fetched LoginStartBody) : Page :=
  let st1 := st.fetch
    { endpoint := Endpoint.loginStart, method := "POST",
      headers := [("Content-Type", "application/json")], credentials := true,
      body := Payload.loginStart identifier }
  let caught := showMessage st1 "An error occurred while starting login. Please try again." "error"
  match r with
  | Fetched.throws => caught
  | Fetched.response _ Parsed.throws => caught
  | Fetched.response _ Parsed.null => caught
  | Fetched.response ok (Parsed.object data) =>
    if ok && data.success then
      let st2 := { st1 with
        customerIdForOTP := fieldNum data.customer_id
        localStorage := st1.localStorage.setItem "customerId" (fieldNum data.customer_id).toStr }
      let st3 := { st2 with otpSection := st2.otpSection.map (fun _ => true) }
      showMessage st3 "OTP sent successfully! Please check your registered mobile/email." "success"
    else
      showMessage st1 (jsOrStr data.message "Failed to send OTP. Please try again.") "error"

/-- The customer id that `handleOTPVerify` sends, lines 32 to 36 of `auth.js`: `none`
when the guard `!customerIdForOTP && !localStorage.getItem('customerId')` stops the
handler, else the value of
`customerIdForOTP || parseInt(localStorage.getItem('customerId'), 10)`. -/
def pendingCid (st : Page) : Option JsNum :=
  if !st.customerIdForOTP.truthy && !truthy (st.localStorage.getItem "customerId") then none
  else if st.customerIdForOTP.truthy then some st.customerIdForOTP
  else some (parseInt10 ((st.localStorage.getItem "customerId").getD "null"))

/-- The function `handleOTPVerify` of `auth.js`, with the value of the `otp` field and
the outcome of the `fetch`. -/
def handleOTPVerify (st : Page) (otp : String) (r : Fetched VerifyBody) : Page :=
  match pendingCid st with
  | none => showMessage st "Please start the login process first." "error"
  | some cid =>
    let st1 := st.fetch
      { endpoint := Endpoint.loginVerify, method := "POST",
        headers := [("Content-Type", "application/json")], credentials := true,
        body := Payload.loginVerify cid otp }
    let caught := showMessage st1 "An error occurred verifying OTP. Please try again." "error"
    match r with
    | Fetched.throws => caught
    | Fetched.response _ Parsed.throws => caught
    | Fetched.response _ Parsed.null => caught
    | Fetched.response ok (Parsed.object data) =>
      if ok && data.success && truthy data.access_token then
        let token := data.access_token.getD ""
        let ls1 := st1.localStorage.setItem "authToken" token
        let ls2 := if truthy data.refresh_token
          then ls1.setItem "refreshToken" (data.refresh_token.getD "") else ls1
        let ls3 := ls2.setItem "customerId" cid.toStr
        { st1 with
          localStorage := ls3
          windowAuthToken := some token
          windowCustomerId := some cid.toStr
          location := "/personal-banking" }
      else
        showMessage st1 (jsOrStr data.reason "Invalid OTP. Please try again.") "error"

/-! ## main.js -/

/-- The function `logout` of `main.js`. -/
def logout (st : Page) : Page :=
  let ls1 := st.localStorage.removeItem "authToken"
  let ls2 := ls1.removeItem "customerId"
  let ls3 := ls2.removeItem "sessionId"
  { st with localStorage := ls3, location := "/" }

/-! ## dashboard.js -/

/-- The function `loadUserProfile` of `dashboard.js`, with the outcome of the `fetch`.
A rejected `fetch` or body is caught and logged to the console only. -/
def loadUserProfile (st : Page) (r : Fetched ProfileBody) : Page :=
  let st1 := st.fetch
    { endpoint := Endpoint.userProfile, method := "GET", headers := getAuthHeaders st,
      credentials := false, body := Payload.none }
  match r with
  | Fetched.throws => st1
  | Fetched.response false _ => st1
  | Fetched.response true Parsed.throws => st1
  | Fetched.response true Parsed.null => st1
  | Fetched.response true (Parsed.object data) =>
    let st2 := if truthy data.name
      then { st1 with userName := st1.userName.map (fun _ => data.name.getD "") } else st1
    if (fieldNum data.customer_id).truthy then
      { st2 with
        customerId := some (fieldNum data.customer_id).toStr
        localStorage := st2.localStorage.setItem "customerId" (fieldNum data.customer_id).toStr }
    else st2

/-- The function `maskAccountNumber` of `dashboard.js`; the argument is a string, given
by its UTF-16 code units, or `null` or `undefined` (`none`).  An empty string is falsy. -/
def maskAccountNumber (accountNumber : Option (List Nat)) : List Nat :=
  match accountNumber with
  | none => utf16 "****"
  | some a =>
    if a.isEmpty || decide (a.length < 4) then utf16 "****"
    else utf16 "****" ++ jsSlice a (-4)

/-! ## chat.js -/

/-- The text `Session: ${id.substring(0,8)}...` written to the element `sessionId`,
when the page has that element; the text is given by its UTF-16 code units, of which
`substring(0,8)` keeps the first eight of the id. -/
def Page.showSession (st : Page) (id : String) : Page :=
  let label := utf16 "Session: " ++ (utf16 id).take 8 ++ utf16 "..."
  { st with sessionLabel := st.sessionLabel.map (fun _ => label) }

/-- The method `addMessage(text, sender)`: one more bubble in the chat panel. -/
def Page.addMessage (st : Page) (text sender : String) : Page :=
  { st with chatLog := st.chatLog ++ [(text, sender)] }

/-- The fallback of `ensureSession`: the id `'temp-' + Date.now()` is kept in memory,
in the tab-scoped store and on `window`; `Date.now()` is a count of milliseconds, a
natural number. -/
def Page.useTemporary (st : Page) (now : Nat) : Page :=
  { st with
    chatSessionId := some ("temp-" ++ toString now)
    sessionStorage := st.sessionStorage.setItem "sessionId" ("temp-" ++ toString now)
    windowSessionId := some ("temp-" ++ toString now) }

/-- The method `ChatManager.ensureSession`, with the outcome of the `fetch` of the
session-create endpoint and the value of `Date.now()`; neither is used when the
tab-scoped store already holds an id. -/
def ensureSession (st : Page) (r : Fetched SessionBody) (now : Nat) : Page :=
  let stored := st.sessionStorage.getItem "sessionId"
  if truthy stored then
    { st with chatSessionId := stored, windowSessionId := stored }.showSession (stored.getD "")
  else
    let st1 := st.fetch
      { endpoint := Endpoint.sessionCreate, method := "POST",
        headers := Assoc.spread [("Content-Type", "application/json")] (getAuthHeaders st),
        credentials := true, body := Payload.none }
    let fallback := (st1.useTemporary now).showSession ("temp-" ++ toString now)
    match r with
    | Fetched.throws => st1.useTemporary now
    | Fetched.response false _ => fallback
    | Fetched.response true Parsed.throws => st1.useTemporary now
    | Fetched.response true Parsed.null => fallback
    | Fetched.response true (Parsed.object data) =>
      if truthy data.session_id then
        { st1 with
          chatSessionId := data.session_id
          sessionStorage := st1.sessionStorage.setItem "sessionId" (data.session_id.getD "")
          windowSessionId := data.session_id }.showSession (data.session_id.getD "")
      else fallback

/-- The function `updateLanguage`, called by `chat.js` and declared outside these
files: it is taken to set the global `currentLanguage`. -/
def updateLanguage (st : Page) (lang : String) : Page :=
  { st with currentLanguage := lang }

/-- The session id that `sendMessage` works with, line 125 of `chat.js`:
`sessionStorage.getItem('sessionId') || this.sessionId || null`. -/
def currentSessionId (st : Page) : Option String :=
  jsOr (jsOr (st.sessionStorage.getItem "sessionId") st.chatSessionId) none

/-- The request that `sendMessage` builds for a message, lines 125 to 149 of
`chat.js`. -/
def chatRequest (st : Page) (message : String) : Request :=
  let sid := currentSessionId st
  let headers := Assoc.spread [("Content-Type", "application/json")] (getAuthHeaders st)
  { endpoint := Endpoint.chat, method := "POST",
    headers := if truthy sid then Assoc.insert "X-Session-Id" (sid.getD "") headers else headers,
    credentials := true,
    body := Payload.chat message (jsOr sid none)
      (if truthy st.customerId then parseIntAuto (st.customerId.getD "") else JsNum.null)
      st.currentLanguage }

/-- The method `hideTypingIndicator`. -/
def Page.hideTyping (st : Page) : Page :=
  { st with typing := false }

/-- Lines 117 to 149 of `sendMessage`: the user bubble is shown, the input is cleared,
the typing indicator is displayed, `this.sessionId` is refreshed from the tab-scoped
store and the chat request is issued. -/
def Page.beginSend (st : Page) (message : String) : Page :=
  let st1 := { st.addMessage message "user" with
    chatInput := st.chatInput.map (fun _ => ""), typing := true }
  { st1 with chatSessionId := currentSessionId st1 }.fetch (chatRequest st1 message)

/-- Lines 163 to 172 of `sendMessage`: a non-empty `session_id` of the server that
differs from `this.sessionId` is written to memory, to the tab-scoped store and to
`window`. -/
def Page.reconcile (st : Page) (sid : Option String) : Page :=
  if truthy sid && (!truthy st.chatSessionId || st.chatSessionId != sid) then
    { st with
      chatSessionId := sid
      sessionStorage := st.sessionStorage.setItem "sessionId" (sid.getD "")
      windowSessionId := sid }.showSession (sid.getD "")
  else st

/-- The message that `sendMessage` reads, lines 113 and 114 of `chat.js`:
`chatInput ? chatInput.value.trim() : ''`. -/
def typedMessage (st : Page) : String :=
  match st.chatInput with
  | some v => jsTrim v
  | none => ""

/-- The method `ChatManager.sendMessage`, with the outcome of the `fetch` of the chat
endpoint; nothing happens when the typed message is blank. -/
def sendMessage (st : Page) (r : Fetched ChatBody) : Page :=
  if typedMessage st = "" then st
  else
    let st1 := st.beginSend (typedMessage st)
    let caught := st1.hideTyping.addMessage
      "Sorry, I encountered an error. Please try again." "bot"
    match r with
    | Fetched.throws => caught
    | Fetched.response false _ =>
      st1.hideTyping.addMessage "Sorry, the server returned an error. Try again." "bot"
    | Fetched.response true Parsed.throws => caught
    | Fetched.response true Parsed.null => caught
    | Fetched.response true (Parsed.object data) =>
      let st2 := st1.hideTyping.reconcile data.session_id
      let st3 := st2.addMessage (jsOrStr data.bot_response "I couldn't process that right now.") "bot"
      if truthy data.lang && data.lang != some st3.currentLanguage then
        updateLanguage st3 (data.lang.getD "")
      else st3

/-! ## The tab as a state machine -/

/-- One step of the chat widget of a tab: `ensureSession` with the outcome of its
`fetch` and the clock value, `sendMessage` after the user has put a text in the chat
input (or with the input element absent) with the outcome of its `fetch`, or
`logout`. -/
inductive ChatStep where
  | ensureSession (r : Fetched SessionBody) (now : Nat)
  | sendMessage (typed : Option String) (r : Fetched ChatBody)
  | logout
  deriving DecidableEq, Repr

/-- The state after one step of the chat widget. -/
def ChatStep.apply (st : Page) : ChatStep → Page
  | ChatStep.ensureSession r now => TrustUnionBank.ensureSession st r now
  | ChatStep.sendMessage typed r => TrustUnionBank.sendMessage { st with chatInput := typed } r
  | ChatStep.logout => TrustUnionBank.logout st

/-- The state after a sequence of steps of the chat widget. -/
def runChat (st : Page) : List ChatStep → Page
  | [] => st
  | step :: steps => runChat (step.apply st) steps

/-- The session id that the server supplies in a step, if any: the non-empty
`session_id` of a chat response with a success status. -/
def ChatStep.supplied : ChatStep → Option String
  | ChatStep.sendMessage _ (Fetched.response true (Parsed.object data)) =>
    if truthy data.session_id then data.session_id else none
  | _ => none

/-- The session ids that the server supplies along a sequence of steps. -/
def suppliedIds (steps : List ChatStep) : List String :=
  steps.filterMap ChatStep.supplied

/-- One step of the login and dashboard pages: one of the three handlers with its
input and the outcome of its `fetch`, or `logout`. -/
inductive AuthStep where
  | handleLoginStart (identifier : String) (r : Fetched LoginStartBody)
  | handleOTPVerify (otp : String) (r : Fetched VerifyBody)
  | loadUserProfile (r : Fetched ProfileBody)
  | logout
  deriving DecidableEq, Repr

/-- The state after one step of the login and dashboard pages. -/
def AuthStep.apply (st : Page) : AuthStep → Page
  | AuthStep.handleLoginStart identifier r => TrustUnionBank.handleLoginStart st identifier r
  | AuthStep.handleOTPVerify otp r => TrustUnionBank.handleOTPVerify st otp r
  | AuthStep.loadUserProfile r => TrustUnionBank.loadUserProfile st r
  | AuthStep.logout => TrustUnionBank.logout st

/-- The state after a sequence of steps of the login and dashboard pages. -/
def runAuth (st : Page) : List AuthStep → Page
  | [] => st
  | step :: steps => runAuth (step.apply st) steps

/-! ## Properties named in the specification -/

/-- The ways in which the session-create call fails: the `fetch` rejects, the status is
not a success, the body does not parse, or it carries no non-empty `session_id`. -/
def sessionCreateFails : Fetched SessionBody → Bool
  | Fetched.throws => true
  | Fetched.response false _ => true
  | Fetched.response true Parsed.throws => true
  | Fetched.response true Parsed.null => true
  | Fetched.response true (Parsed.object data) => !truthy data.session_id

/-- The failing outcomes of the login-start call: the `fetch` rejects, the body does not
parse or is `null`, the status is not a success, or `success` is not true. -/
def loginStartFails : Fetched LoginStartBody → Bool
  | Fetched.throws => true
  | Fetched.response _ Parsed.throws => true
  | Fetched.response _ Parsed.null => true
  | Fetched.response ok (Parsed.object data) => !ok || !data.success

/-- The failing outcomes of the login-verify call: the `fetch` rejects, the body does
not parse or is `null`, the status is not a success, `success` is not true, or there is
no non-empty `access_token`. -/
def verifyFails : Fetched VerifyBody → Bool
  | Fetched.throws => true
  | Fetched.response _ Parsed.throws => true
  | Fetched.response _ Parsed.null => true
  | Fetched.response ok (Parsed.object data) =>
    !ok || !data.success || !truthy data.access_token

/-- The chat exchanges that supply no session id: the `fetch` rejects, the status is
not a success, the body does not parse or is `null`, or it carries no non-empty
`session_id`. -/
def chatSuppliesNoId : Fetched ChatBody → Bool
  | Fetched.throws => true
  | Fetched.response false _ => true
  | Fetched.response true Parsed.throws => true
  | Fetched.response true Parsed.null => true
  | Fetched.response true (Parsed.object data) => !truthy data.session_id

/-- The in-memory id agrees with the tab-scoped store: `this.sessionId` is a non-empty
string, the `sessionId` entry of the store is that string, and so is
`window.sessionId`. -/
def sessionInSync (st : Page) : Bool :=
  truthy st.chatSessionId &&
    st.sessionStorage.getItem "sessionId" == st.chatSessionId &&
    st.windowSessionId == st.chatSessionId

/-- The pattern `temp-<digits>`: the five characters `temp-` and then one or more
decimal digits, nothing else. -/
def matchesTempPattern (s : String) : Bool :=
  match s.data with
  | 't' :: 'e' :: 'm' :: 'p' :: '-' :: ds => !ds.isEmpty && ds.all Char.isDigit
  | _ => false

/-! ## Sample states -/

/-- A tab whose store already holds the id `srv-123`. -/
def tabWithSession : Page :=
  Page.blank Storage.empty (Storage.empty.setItem "sessionId" "srv-123")

/-- A tab holding the provisional id `temp-1700000000000`, with `balance?` typed in the
chat input. -/
def tabProvisional : Page :=
  { Page.blank Storage.empty (Storage.empty.setItem "sessionId" "temp-1700000000000") with
    chatSessionId := some "temp-1700000000000", chatInput := some "balance?" }

/-- A chat response that carries the session id `srv-123`. -/
def chatReply : ChatBody :=
  { bot_response := some "Your balance is 10.", session_id := some "srv-123", lang := none }

/-- The login-start response of the scenario: `success` with customer id 42. -/
def loginStarted : Fetched LoginStartBody :=
  Fetched.response true (Parsed.object { success := true, customer_id := some 42, message := none })

/-- The body of the login-start response of the scenario. -/
def loginStartedBody : LoginStartBody :=
  { success := true, customer_id := some 42, message := none }

/-- The login page reloaded after the login-start of the scenario: `customerIdForOTP` is
`null` again and the durable store holds the customer id. -/
def loginPageReloaded : Page :=
  Page.blank (Storage.empty.setItem "customerId" "42") Storage.empty

/-- The login-verify response of the scenario: `success` with the token `tok_abc`. -/
def loginVerified : VerifyBody :=
  { success := true, access_token := some "tok_abc", refresh_token := none, reason := none }

/-- A login-start response that rejects the identifier with a message. -/
def loginRejected : Fetched LoginStartBody :=
  Fetched.response true
    (Parsed.object { success := false, customer_id := none, message := some "Unknown customer" })

/-- A login-verify response with an error status and no token. -/
def verifyRejected : Fetched VerifyBody :=
  Fetched.response false (Parsed.object ⟨false, none, none, none⟩)

/-- A login-start body whose customer id is `10^21`. -/
def hugeIdBody : LoginStartBody :=
  { success := true, customer_id := some 1000000000000000000000, message := none }

/-- The login page after a login-start that returned the customer id `10^21`. -/
def hugeIdPending : Page :=
  handleLoginStart (Page.blank Storage.empty Storage.empty) "9876500000"
    (Fetched.response true (Parsed.object hugeIdBody))

/-- The login page of `hugeIdPending` reloaded: `customerIdForOTP` is `null` again, the
durable store is the one that the login-start left. -/
def hugeIdReloaded : Page :=
  Page.blank hugeIdPending.localStorage Storage.empty

/-- A login-start body whose customer id is `2^53 + 1`, the first integer that is not a
double. -/
def unsafeIdBody : LoginStartBody :=
  { success := true, customer_id := some 9007199254740993, message := none }

/-- The string `a😀b`: three characters, four UTF-16 code units. -/
def astralShort : String := ⟨['a', Char.ofNat 128512, 'b']⟩

/-- The string `12😀456`: six characters, seven UTF-16 code units. -/
def astralLong : String := ⟨['1', '2', Char.ofNat 128512, '4', '5', '6']⟩

/-- A logged-in tab: token, refresh token and customer id in the durable store, a
session id in the tab-scoped store. -/
def tabLoggedIn : Page :=
  Page.blank
    (((Storage.empty.setItem "authToken" "tok_abc").setItem "refreshToken" "ref_abc").setItem
      "customerId" "42")
    (Storage.empty.setItem "sessionId" "srv-123")

/-! ## Lemmas on storage areas -/

theorem Assoc.lookup_insert_self (k v : String) (es : List (String × String)) :
    Assoc.lookup k (Assoc.insert k v es) = some v := by
  induction es with
  | nil => simp [Assoc.insert, Assoc.lookup]
  | cons e es ih =>
    obtain ⟨k', v'⟩ := e
    by_cases h : k' = k
    · simp [Assoc.insert, Assoc.lookup, h]
    · simp [Assoc.insert, Assoc.lookup, h, ih]

theorem Assoc.lookup_insert_ne (k k' v : String) (es : List (String × String)) (h : k' ≠ k) :
    Assoc.lookup k' (Assoc.insert k v es) = Assoc.lookup k' es := by
  induction es with
  | nil => simp [Assoc.insert, Assoc.lookup, Ne.symm h]
  | cons e es ih =>
    obtain ⟨k₁, v₁⟩ := e
    by_cases h₁ : k₁ = k
    · subst h₁
      simp [Assoc.insert, Assoc.lookup, Ne.symm h]
    · by_cases h₂ : k₁ = k'
      · subst h₂
        simp [Assoc.insert, Assoc.lookup, h₁]
      · simp [Assoc.insert, Assoc.lookup, h₁, h₂, ih]

theorem Assoc.lookup_erase_self (k : String) (es : List (String × String)) :
    Assoc.lookup k (Assoc.erase k es) = none := by
  induction es with
  | nil => simp [Assoc.erase, Assoc.lookup]
  | cons e es ih =>
    obtain ⟨k', v'⟩ := e
    by_cases h : k' = k
    · simp [Assoc.erase, h, ih]
    · simp [Assoc.erase, Assoc.lookup, h, ih]

theorem Assoc.lookup_erase_ne (k k' : String) (es : List (String × String)) (h : k' ≠ k) :
    Assoc.lookup k' (Assoc.erase k es) = Assoc.lookup k' es := by
  induction es with
  | nil => simp [Assoc.erase, Assoc.lookup]
  | cons e es ih =>
    obtain ⟨k₁, v₁⟩ := e
    by_cases h₁ : k₁ = k
    · subst h₁
      simp [Assoc.erase, Assoc.lookup, Ne.symm h, ih]
    · by_cases h₂ : k₁ = k'
      · subst h₂
        simp [Assoc.erase, Assoc.lookup, h₁]
      · simp [Assoc.erase, Assoc.lookup, h₁, h₂, ih]

@[simp] theorem Storage.getItem_setItem_self (s : Storage) (k v : String) :
    (s.setItem k v).getItem k = some v :=
  Assoc.lookup_insert_self k v s.entries

theorem Storage.getItem_setItem_ne (s : Storage) (k k' v : String) (h : k' ≠ k) :
    (s.setItem k v).getItem k' = s.getItem k' :=
  Assoc.lookup_insert_ne k k' v s.entries h

@[simp] theorem Storage.getItem_removeItem_self (s : Storage) (k : String) :
    (s.removeItem k).getItem k = none :=
  Assoc.lookup_erase_self k s.entries

theorem Storage.getItem_removeItem_ne (s : Storage) (k k' : String) (h : k' ≠ k) :
    (s.removeItem k).getItem k' = s.getItem k' :=
  Assoc.lookup_erase_ne k k' s.entries h

theorem truthy_some_iff (s : String) : truthy (some s) = true ↔ s ≠ "" := by
  simp [truthy]

/-! ## Decimal digits -/

theorem digitChar_isDigit (d : Nat) (h : d < 10) : (Nat.digitChar d).isDigit = true := by
  interval_cases d <;> decide

theorem toDigitsCore_all_isDigit (fuel : Nat) :
    ∀ (n : Nat) (ds : List Char), (∀ c ∈ ds, c.isDigit = true) →
      ∀ c ∈ Nat.toDigitsCore 10 fuel n ds, c.isDigit = true := by
  induction fuel with
  | zero => intro n ds h; simpa [Nat.toDigitsCore] using h
  | succ fuel ih =>
    intro n ds h
    have hd : (Nat.digitChar (n % 10)).isDigit = true :=
      digitChar_isDigit _ (Nat.mod_lt _ (by decide))
    have hcons : ∀ c ∈ Nat.digitChar (n % 10) :: ds, c.isDigit = true := by
      intro c hc
      rcases List.mem_cons.mp hc with rfl | hc
      · exact hd
      · exact h c hc
    simp only [Nat.toDigitsCore]
    split
    · exact hcons
    · exact ih _ _ hcons

theorem toDigitsCore_ne_nil (fuel n : Nat) (ds : List Char) (h : ds ≠ [] ∨ fuel ≠ 0) :
    Nat.toDigitsCore 10 fuel n ds ≠ [] := by
  induction fuel generalizing n ds with
  | zero =>
    rcases h with h | h
    · simpa [Nat.toDigitsCore] using h
    · exact absurd rfl h
  | succ fuel ih =>
    simp only [Nat.toDigitsCore]
    split
    · simp
    · exact ih _ _ (Or.inl (by simp))

theorem toString_nat_data (n : Nat) : (toString n).data = Nat.toDigits 10 n := rfl

theorem matchesTempPattern_temp (now : Nat) :
    matchesTempPattern ("temp-" ++ toString now) = true := by
  have hdata : ("temp-" ++ toString now).data
      = 't' :: 'e' :: 'm' :: 'p' :: '-' :: Nat.toDigits 10 now := by
    rw [String.data_append, toString_nat_data]; rfl
  have hne : Nat.toDigits 10 now ≠ [] := toDigitsCore_ne_nil _ _ _ (Or.inr (by simp))
  have hall : ∀ c ∈ Nat.toDigits 10 now, c.isDigit = true :=
    toDigitsCore_all_isDigit _ _ _ (by simp)
  simp only [matchesTempPattern, hdata, Bool.and_eq_true, Bool.not_eq_true',
    List.isEmpty_eq_false, List.all_eq_true]
  exact ⟨hne, hall⟩

theorem temp_ne_empty (now : Nat) : "temp-" ++ toString now ≠ "" := by
  intro h
  have := congrArg String.data h
  rw [String.data_append] at this
  simp at this

/-! ## Numbers up to `2^53` -/

theorem roundToDouble_of_le (m : Nat) (h : m ≤ 2 ^ 53) : roundToDouble m = some m := by
  rw [roundToDouble, if_pos h]

/-- An integer up to `2^53` in absolute value is held exactly. -/
theorem JsNum.ofInt_of_safe (c : Int) (h : c.natAbs ≤ 2 ^ 53) : JsNum.ofInt c = JsNum.num c := by
  simp only [JsNum.ofInt, roundToDouble_of_le _ h]
  congr 1
  split <;> omega

/-- An integer up to `2^53` in absolute value is printed as its decimal string. -/
theorem JsNum.toStr_of_safe (c : Int) (h : c.natAbs ≤ 2 ^ 53) :
    (JsNum.num c).toStr = toString c := by
  rw [JsNum.toStr, if_pos h]

/-! ## Frame lemmas of the helpers -/

@[simp] theorem Page.addMessage_sessionStorage (st : Page) (t u : String) :
    (st.addMessage t u).sessionStorage = st.sessionStorage := rfl
@[simp] theorem Page.addMessage_chatSessionId (st : Page) (t u : String) :
    (st.addMessage t u).chatSessionId = st.chatSessionId := rfl
@[simp] theorem Page.addMessage_windowSessionId (st : Page) (t u : String) :
    (st.addMessage t u).windowSessionId = st.windowSessionId := rfl
@[simp] theorem Page.addMessage_requests (st : Page) (t u : String) :
    (st.addMessage t u).requests = st.requests := rfl
@[simp] theorem Page.addMessage_localStorage (st : Page) (t u : String) :
    (st.addMessage t u).localStorage = st.localStorage := rfl

@[simp] theorem Page.hideTyping_sessionStorage (st : Page) :
    st.hideTyping.sessionStorage = st.sessionStorage := rfl
@[simp] theorem Page.hideTyping_chatSessionId (st : Page) :
    st.hideTyping.chatSessionId = st.chatSessionId := rfl
@[simp] theorem Page.hideTyping_windowSessionId (st : Page) :
    st.hideTyping.windowSessionId = st.windowSessionId := rfl
@[simp] theorem Page.hideTyping_requests (st : Page) :
    st.hideTyping.requests = st.requests := rfl
@[simp] theorem Page.hideTyping_localStorage (st : Page) :
    st.hideTyping.localStorage = st.localStorage := rfl

@[simp] theorem updateLanguage_sessionStorage (st : Page) (l : String) :
    (updateLanguage st l).sessionStorage = st.sessionStorage := rfl
@[simp] theorem updateLanguage_chatSessionId (st : Page) (l : String) :
    (updateLanguage st l).chatSessionId = st.chatSessionId := rfl
@[simp] theorem updateLanguage_windowSessionId (st : Page) (l : String) :
    (updateLanguage st l).windowSessionId = st.windowSessionId := rfl
@[simp] theorem updateLanguage_requests (st : Page) (l : String) :
    (updateLanguage st l).requests = st.requests := rfl
@[simp] theorem updateLanguage_localStorage (st : Page) (l : String) :
    (updateLanguage st l).localStorage = st.localStorage := rfl

@[simp] theorem Page.showSession_sessionStorage (st : Page) (i : String) :
    (st.showSession i).sessionStorage = st.sessionStorage := rfl
@[simp] theorem Page.showSession_chatSessionId (st : Page) (i : String) :
    (st.showSession i).chatSessionId = st.chatSessionId := rfl
@[simp] theorem Page.showSession_windowSessionId (st : Page) (i : String) :
    (st.showSession i).windowSessionId = st.windowSessionId := rfl
@[simp] theorem Page.showSession_requests (st : Page) (i : String) :
    (st.showSession i).requests = st.requests := rfl
@[simp] theorem Page.showSession_localStorage (st : Page) (i : String) :
    (st.showSession i).localStorage = st.localStorage := rfl

@[simp] theorem Page.beginSend_sessionStorage (st : Page) (m : String) :
    (st.beginSend m).sessionStorage = st.sessionStorage := rfl
@[simp] theorem Page.beginSend_chatSessionId (st : Page) (m : String) :
    (st.beginSend m).chatSessionId = currentSessionId st := rfl
@[simp] theorem Page.beginSend_windowSessionId (st : Page) (m : String) :
    (st.beginSend m).windowSessionId = st.windowSessionId := rfl
@[simp] theorem Page.beginSend_localStorage (st : Page) (m : String) :
    (st.beginSend m).localStorage = st.localStorage := rfl
theorem Page.beginSend_requests (st : Page) (m : String) :
    (st.beginSend m).requests = st.requests ++ [chatRequest st m] := rfl

/-- The id that `sendMessage` works with is `null` or a non-empty string. -/
theorem currentSessionId_eq_none (st : Page) (h : truthy (currentSessionId st) = false) :
    currentSessionId st = none := by
  unfold currentSessionId at h ⊢
  generalize jsOr (st.sessionStorage.getItem "sessionId") st.chatSessionId = x at h ⊢
  simp only [jsOr] at h ⊢
  split <;> simp_all

/-- The id that `sendMessage` works with is the non-empty id of the tab-scoped store
when there is one. -/
theorem currentSessionId_of_stored (st : Page) (s : String)
    (h : st.sessionStorage.getItem "sessionId" = some s) (hne : s ≠ "") :
    currentSessionId st = some s := by
  simp [currentSessionId, jsOr, h, truthy, hne]

/-! ## Session reconciliation -/

/-- The effect of the reconciliation on the session state. -/
theorem Page.reconcile_session (st : Page) (sid : Option String) :
    (truthy sid = true ∧ st.chatSessionId ≠ sid ∧
      (st.reconcile sid).chatSessionId = sid ∧
      (st.reconcile sid).windowSessionId = sid ∧
      (st.reconcile sid).sessionStorage = st.sessionStorage.setItem "sessionId" (sid.getD "")) ∨
    ((truthy sid = false ∨ st.chatSessionId = sid) ∧
      (st.reconcile sid).chatSessionId = st.chatSessionId ∧
      (st.reconcile sid).windowSessionId = st.windowSessionId ∧
      (st.reconcile sid).sessionStorage = st.sessionStorage) := by
  by_cases ht : truthy sid = true
  · by_cases hc : st.chatSessionId = sid
    · right
      simp [Page.reconcile, ht, hc]
    · left
      simp [Page.reconcile, ht, hc]
  · right
    simp [Page.reconcile, ht]

/-- What `sendMessage` does to the session state on a response with a success status
and a parsed body. -/
theorem sendMessage_ok_session (st : Page) (data : ChatBody)
    (hmsg : typedMessage st ≠ "") :
    (truthy data.session_id = true ∧ currentSessionId st ≠ data.session_id ∧
      (sendMessage st (Fetched.response true (Parsed.object data))).chatSessionId
        = data.session_id ∧
      (sendMessage st (Fetched.response true (Parsed.object data))).windowSessionId
        = data.session_id ∧
      (sendMessage st (Fetched.response true (Parsed.object data))).sessionStorage
        = st.sessionStorage.setItem "sessionId" (data.session_id.getD "")) ∨
    ((truthy data.session_id = false ∨ currentSessionId st = data.session_id) ∧
      (sendMessage st (Fetched.response true (Parsed.object data))).chatSessionId
        = currentSessionId st ∧
      (sendMessage st (Fetched.response true (Parsed.object data))).windowSessionId
        = st.windowSessionId ∧
      (sendMessage st (Fetched.response true (Parsed.object data))).sessionStorage
        = st.sessionStorage) := by
  have hrec := Page.reconcile_session (st.beginSend (typedMessage st)).hideTyping
    data.session_id
  simp only [Page.hideTyping_chatSessionId, Page.hideTyping_windowSessionId,
    Page.hideTyping_sessionStorage, Page.beginSend_chatSessionId,
    Page.beginSend_windowSessionId, Page.beginSend_sessionStorage] at hrec
  simp only [sendMessage, hmsg, if_false]
  split <;> simpa using hrec

/-- A blank message is not sent. -/
theorem sendMessage_blank (st : Page) (r : Fetched ChatBody) (h : typedMessage st = "") :
    sendMessage st r = st := by
  simp [sendMessage, h]

/-! ## Claims on the chat session -/

/-- C1: when the tab-scoped store holds a non-empty id `S` under `sessionId`,
`ensureSession` issues no request (so no session-create request), sets `this.sessionId`
and `window.sessionId` to `S`, and leaves the tab-scoped store as it was. -/
theorem ensureSession_reuses_stored_id (st : Page) (r : Fetched SessionBody) (now : Nat)
    (S : String) (hS : st.sessionStorage.getItem "sessionId" = some S) (hne : S ≠ "") :
    (ensureSession st r now).requests = st.requests ∧
    (ensureSession st r now).chatSessionId = some S ∧
    (ensureSession st r now).windowSessionId = some S ∧
    (ensureSession st r now).sessionStorage = st.sessionStorage := by
  simp [ensureSession, hS, truthy, hne]

/-- Witness of C1: a tab that holds `srv-123`, with a server that would answer with
another id. -/
theorem ensureSession_reuses_stored_id_witness :
    (tabWithSession.sessionStorage.getItem "sessionId" = some "srv-123" ∧ "srv-123" ≠ "") ∧
    (ensureSession tabWithSession
        (Fetched.response true (Parsed.object ⟨some "srv-999"⟩)) 5).requests = [] ∧
    (ensureSession tabWithSession
        (Fetched.response true (Parsed.object ⟨some "srv-999"⟩)) 5).chatSessionId
      = some "srv-123" ∧
    (ensureSession tabWithSession
        (Fetched.response true (Parsed.object ⟨some "srv-999"⟩)) 5).windowSessionId
      = some "srv-123" ∧
    (ensureSession tabWithSession
        (Fetched.response true (Parsed.object ⟨some "srv-999"⟩)) 5).sessionStorage
      = tabWithSession.sessionStorage :=
  ⟨⟨by decide, by decide⟩,
    ensureSession_reuses_stored_id tabWithSession _ 5 "srv-123" (by decide) (by decide)⟩

/-- C2: when the id that `sendMessage` works with is not `s` and the chat response has
a success status and carries the non-empty `session_id` `s`, then after `sendMessage`
the in-memory id (`this.sessionId`, `window.sessionId`) and the `sessionId` entry of the
tab-scoped store are `s`; and handling one more successful response that carries the
same `s`, whatever the user typed meanwhile, changes neither the in-memory id nor the
tab-scoped store. -/
theorem sendMessage_server_id_overrides (st : Page) (data : ChatBody) (s : String)
    (hmsg : typedMessage st ≠ "") (hs : data.session_id = some s) (hne : s ≠ "")
    (hP : currentSessionId st ≠ some s) :
    (sendMessage st (Fetched.response true (Parsed.object data))).chatSessionId = some s ∧
    (sendMessage st (Fetched.response true (Parsed.object data))).windowSessionId = some s ∧
    (sendMessage st (Fetched.response true (Parsed.object data))).sessionStorage.getItem
      "sessionId" = some s ∧
    ∀ (typed : Option String) (again : ChatBody), again.session_id = some s →
      (sendMessage
          { sendMessage st (Fetched.response true (Parsed.object data)) with chatInput := typed }
          (Fetched.response true (Parsed.object again))).chatSessionId = some s ∧
      (sendMessage
          { sendMessage st (Fetched.response true (Parsed.object data)) with chatInput := typed }
          (Fetched.response true (Parsed.object again))).windowSessionId = some s ∧
      (sendMessage
          { sendMessage st (Fetched.response true (Parsed.object data)) with chatInput := typed }
          (Fetched.response true (Parsed.object again))).sessionStorage
        = (sendMessage st (Fetched.response true (Parsed.object data))).sessionStorage := by
  have hfirst : (sendMessage st (Fetched.response true (Parsed.object data))).chatSessionId
        = some s ∧
      (sendMessage st (Fetched.response true (Parsed.object data))).windowSessionId = some s ∧
      (sendMessage st (Fetched.response true (Parsed.object data))).sessionStorage.getItem
        "sessionId" = some s := by
    rcases sendMessage_ok_session st data hmsg with ⟨_, _, h1, h2, h3⟩ | ⟨hc, _⟩
    · rw [h1, h2, h3, hs]
      exact ⟨rfl, rfl, Storage.getItem_setItem_self _ _ _⟩
    · rcases hc with hc | hc
      · simp [hs, truthy, hne] at hc
      · exact absurd (hc.trans hs) hP
  obtain ⟨hm, hw, hst⟩ := hfirst
  refine ⟨hm, hw, hst, ?_⟩
  intro typed again hagain
  generalize sendMessage st (Fetched.response true (Parsed.object data)) = st1 at hm hw hst ⊢
  by_cases hblank : typedMessage { st1 with chatInput := typed } = ""
  · rw [sendMessage_blank _ _ hblank]
    exact ⟨hm, hw, rfl⟩
  · have hcur : currentSessionId { st1 with chatInput := typed } = some s :=
      currentSessionId_of_stored _ s hst hne
    rcases sendMessage_ok_session { st1 with chatInput := typed } again hblank with
      ⟨_, hc, _⟩ | ⟨_, h1, h2, h3⟩
    · exact absurd (hcur.trans hagain.symm) hc
    · rw [h1, h2, h3, hcur]
      exact ⟨rfl, hw, rfl⟩

/-- Witness of C2: a tab on the provisional id `temp-1700000000000` receives `srv-123`. -/
theorem sendMessage_server_id_overrides_witness :
    (typedMessage tabProvisional ≠ "" ∧ chatReply.session_id = some "srv-123" ∧
      "srv-123" ≠ "" ∧ currentSessionId tabProvisional ≠ some "srv-123") ∧
    (sendMessage tabProvisional
        (Fetched.response true (Parsed.object chatReply))).chatSessionId = some "srv-123" ∧
    (sendMessage tabProvisional
        (Fetched.response true (Parsed.object chatReply))).sessionStorage.getItem "sessionId"
      = some "srv-123" :=
  ⟨⟨by decide, by decide, by decide, by decide⟩,
    (sendMessage_server_id_overrides tabProvisional chatReply "srv-123"
      (by decide) (by decide) (by decide) (by decide)).1,
    (sendMessage_server_id_overrides tabProvisional chatReply "srv-123"
      (by decide) (by decide) (by decide) (by decide)).2.2.1⟩

/-- C3: when the tab-scoped store holds no session id and the session-create call fails
(the `fetch` rejects, the status is not a success, the body does not parse or carries no
non-empty `session_id`), `ensureSession` at clock value `now` leaves the id `temp-`
followed by the decimal digits of `now` both in the tab-scoped store and in memory; that
id is not empty and matches the pattern `temp-<digits>`. -/
theorem ensureSession_provisional_on_failure (st : Page) (r : Fetched SessionBody)
    (now : Nat) (hstore : truthy (st.sessionStorage.getItem "sessionId") = false)
    (hfail : sessionCreateFails r = true) :
    (ensureSession st r now).sessionStorage.getItem "sessionId"
      = some ("temp-" ++ toString now) ∧
    (ensureSession st r now).chatSessionId = some ("temp-" ++ toString now) ∧
    (ensureSession st r now).windowSessionId = some ("temp-" ++ toString now) ∧
    "temp-" ++ toString now ≠ "" ∧
    matchesTempPattern ("temp-" ++ toString now) = true := by
  refine ⟨?_, ?_, ?_, temp_ne_empty now, matchesTempPattern_temp now⟩
  all_goals
    cases r with
    | throws => simp [ensureSession, hstore, Page.useTemporary]
    | response ok body =>
      cases ok with
      | false => simp [ensureSession, hstore, Page.useTemporary]
      | true =>
        cases body with
        | throws => simp [ensureSession, hstore, Page.useTemporary]
        | null => simp [ensureSession, hstore, Page.useTemporary]
        | object data =>
          have hd : truthy data.session_id = false := by simpa [sessionCreateFails] using hfail
          simp [ensureSession, hstore, hd, Page.useTemporary]

/-- Witness of C3: a tab without session id whose session-create call is rejected at
clock value 1700000000000. -/
theorem ensureSession_provisional_on_failure_witness :
    (truthy ((Page.blank Storage.empty Storage.empty).sessionStorage.getItem "sessionId") = false ∧
      sessionCreateFails Fetched.throws = true) ∧
    (ensureSession (Page.blank Storage.empty Storage.empty) Fetched.throws
        1700000000000).sessionStorage.getItem "sessionId" = some "temp-1700000000000" :=
  ⟨⟨by decide, by decide⟩,
    (ensureSession_provisional_on_failure (Page.blank Storage.empty Storage.empty)
      Fetched.throws 1700000000000 (by decide) (by decide)).1⟩

/-- The tab-scoped store after `sendMessage`: untouched, or holding the non-empty
`session_id` of a response with a success status. -/
theorem sendMessage_sessionStorage (st : Page) (r : Fetched ChatBody) :
    (sendMessage st r).sessionStorage = st.sessionStorage ∨
    ∃ (data : ChatBody) (s : String), r = Fetched.response true (Parsed.object data) ∧
      data.session_id = some s ∧ s ≠ "" ∧
      (sendMessage st r).sessionStorage = st.sessionStorage.setItem "sessionId" s := by
  by_cases hmsg : typedMessage st = ""
  · left; rw [sendMessage_blank _ _ hmsg]
  · cases r with
    | throws => left; simp [sendMessage, hmsg]
    | response ok body =>
      cases ok with
      | false => left; simp [sendMessage, hmsg]
      | true =>
        cases body with
        | throws => left; simp [sendMessage, hmsg]
        | null => left; simp [sendMessage, hmsg]
        | object data =>
          rcases sendMessage_ok_session st data hmsg with ⟨ht, _, _, _, h3⟩ | ⟨_, _, _, h3⟩
          · right
            cases hsid : data.session_id with
            | none => simp [hsid, truthy] at ht
            | some s =>
              refine ⟨data, s, rfl, hsid, ?_, ?_⟩
              · simpa [hsid, truthy] using ht
              · simpa [hsid] using h3
          · left; exact h3

/-- With a non-empty id in the tab-scoped store, `ensureSession` leaves that store
alone. -/
theorem ensureSession_sessionStorage_of_stored (st : Page) (r : Fetched SessionBody)
    (now : Nat) (S : String) (hS : st.sessionStorage.getItem "sessionId" = some S)
    (hne : S ≠ "") : (ensureSession st r now).sessionStorage = st.sessionStorage := by
  simp [ensureSession, hS, truthy, hne]

/-- One step from a tab-scoped store that holds a non-empty id: the store still holds a
non-empty id, the same one or the one that the server supplied in this step. -/
theorem ChatStep.apply_keeps_id (st : Page) (step : ChatStep) (S : String)
    (hS : st.sessionStorage.getItem "sessionId" = some S) (hne : S ≠ "") :
    ∃ s, (step.apply st).sessionStorage.getItem "sessionId" = some s ∧ s ≠ "" ∧
      (s = S ∨ step.supplied = some s) := by
  cases step with
  | ensureSession r now =>
    refine ⟨S, ?_, hne, Or.inl rfl⟩
    simp only [ChatStep.apply]
    rw [ensureSession_sessionStorage_of_stored st r now S hS hne]
    exact hS
  | logout => exact ⟨S, hS, hne, Or.inl rfl⟩
  | sendMessage typed r =>
    simp only [ChatStep.apply]
    rcases sendMessage_sessionStorage { st with chatInput := typed } r with
      h | ⟨data, s, hr, hsid, hs, h⟩
    · exact ⟨S, by rw [h]; exact hS, hne, Or.inl rfl⟩
    · refine ⟨s, by rw [h]; exact Storage.getItem_setItem_self _ _ _, hs, Or.inr ?_⟩
      subst hr
      simp [ChatStep.supplied, hsid, truthy, hs]

/-- C4: once the tab-scoped store holds a non-empty session id `S` (in particular a
server-supplied one), after any sequence of `ensureSession`, `sendMessage` and `logout`
steps, with any server response or failure, the store still holds a non-empty session
id, and that id is `S` or an id that the server supplied in a chat response of the
sequence: no step puts a locally generated `temp-` id in its place. -/
theorem confirmed_id_never_reverts (steps : List ChatStep) (st : Page) (S : String)
    (hS : st.sessionStorage.getItem "sessionId" = some S) (hne : S ≠ "") :
    ∃ s, (runChat st steps).sessionStorage.getItem "sessionId" = some s ∧ s ≠ "" ∧
      (s = S ∨ s ∈ suppliedIds steps) := by
  induction steps generalizing st S with
  | nil => exact ⟨S, hS, hne, Or.inl rfl⟩
  | cons step steps ih =>
    obtain ⟨s₁, h₁, hne₁, hor₁⟩ := ChatStep.apply_keeps_id st step S hS hne
    obtain ⟨s, h, hne', hor⟩ := ih (step.apply st) s₁ h₁ hne₁
    refine ⟨s, h, hne', ?_⟩
    rcases hor with rfl | hmem
    · rcases hor₁ with rfl | hsup
      · exact Or.inl rfl
      · exact Or.inr (by simp [suppliedIds, List.filterMap_cons, hsup])
    · right
      simp only [suppliedIds, List.filterMap_cons]
      cases step.supplied with
      | none => exact hmem
      | some x => exact List.mem_cons_of_mem _ hmem

/-- Witness of C4: a tab on `srv-123` whose page is reloaded while the server is down,
then logs out, then reloads again. -/
theorem confirmed_id_never_reverts_witness :
    (tabWithSession.sessionStorage.getItem "sessionId" = some "srv-123" ∧ "srv-123" ≠ "") ∧
    ∃ s, (runChat tabWithSession
        [ChatStep.ensureSession Fetched.throws 1700000000000, ChatStep.logout,
          ChatStep.ensureSession Fetched.throws 1700000000001]).sessionStorage.getItem
          "sessionId" = some s ∧ s ≠ "" ∧
      (s = "srv-123" ∨ s ∈ suppliedIds
        [ChatStep.ensureSession Fetched.throws 1700000000000, ChatStep.logout,
          ChatStep.ensureSession Fetched.throws 1700000000001]) :=
  ⟨⟨by decide, by decide⟩,
    confirmed_id_never_reverts _ tabWithSession "srv-123" (by decide) (by decide)⟩

/-! ## Claims on the credentials -/

/-- The durable store after `handleLoginStart`: untouched, or with `customerId`
written. -/
theorem handleLoginStart_localStorage (st : Page) (identifier : String)
    (r : Fetched LoginStartBody) :
    (handleLoginStart st identifier r).localStorage = st.localStorage ∨
    ∃ c, (handleLoginStart st identifier r).localStorage
      = st.localStorage.setItem "customerId" c := by
  cases r with
  | throws => left; rfl
  | response ok body =>
    cases body with
    | throws => left; rfl
    | null => left; rfl
    | object data =>
      simp only [handleLoginStart]
      split
      · right; exact ⟨_, rfl⟩
      · left; rfl

/-- The durable store after `handleOTPVerify`: untouched, or with `customerId` written
last. -/
theorem handleOTPVerify_localStorage (st : Page) (otp : String) (r : Fetched VerifyBody) :
    (handleOTPVerify st otp r).localStorage = st.localStorage ∨
    ∃ (ls : Storage) (c : String), (handleOTPVerify st otp r).localStorage
      = ls.setItem "customerId" c := by
  simp only [handleOTPVerify]
  cases pendingCid st with
  | none => left; rfl
  | some cid =>
    cases r with
    | throws => left; rfl
    | response ok body =>
      cases body with
      | throws => left; rfl
      | null => left; rfl
      | object data =>
        dsimp only
        split
        · right; exact ⟨_, _, rfl⟩
        · left; rfl

/-- The durable store after `loadUserProfile`: untouched, or with `customerId`
written. -/
theorem loadUserProfile_localStorage (st : Page) (r : Fetched ProfileBody) :
    (loadUserProfile st r).localStorage = st.localStorage ∨
    ∃ c, (loadUserProfile st r).localStorage = st.localStorage.setItem "customerId" c := by
  cases r with
  | throws => left; rfl
  | response ok body =>
    cases ok with
    | false => left; rfl
    | true =>
      cases body with
      | throws => left; rfl
      | null => left; rfl
      | object data =>
        simp only [loadUserProfile]
        split
        · right
          refine ⟨(fieldNum data.customer_id).toStr, ?_⟩
          dsimp only
          split <;> rfl
        · left
          split <;> rfl

/-- The durable store after `logout` holds neither `authToken` nor `customerId`. -/
theorem logout_localStorage (st : Page) :
    (logout st).localStorage.getItem "authToken" = none ∧
    (logout st).localStorage.getItem "customerId" = none := by
  constructor
  · simp only [logout]
    rw [Storage.getItem_removeItem_ne _ _ _ (by decide),
      Storage.getItem_removeItem_ne _ _ _ (by decide)]
    exact Storage.getItem_removeItem_self _ _
  · simp only [logout]
    rw [Storage.getItem_removeItem_ne _ _ _ (by decide)]
    exact Storage.getItem_removeItem_self _ _

/-- Each step keeps the invariant: a stored token has a stored customer id. -/
theorem AuthStep.apply_keeps_owner (st : Page) (step : AuthStep)
    (h : st.localStorage.getItem "authToken" ≠ none →
      st.localStorage.getItem "customerId" ≠ none) :
    (step.apply st).localStorage.getItem "authToken" ≠ none →
      (step.apply st).localStorage.getItem "customerId" ≠ none := by
  cases step with
  | handleLoginStart identifier r =>
    simp only [AuthStep.apply]
    rcases handleLoginStart_localStorage st identifier r with h' | ⟨c, h'⟩
    · rw [h']; exact h
    · rw [h']; intro _; simp
  | handleOTPVerify otp r =>
    simp only [AuthStep.apply]
    rcases handleOTPVerify_localStorage st otp r with h' | ⟨ls, c, h'⟩
    · rw [h']; exact h
    · rw [h']; intro _; simp
  | loadUserProfile r =>
    simp only [AuthStep.apply]
    rcases loadUserProfile_localStorage st r with h' | ⟨c, h'⟩
    · rw [h']; exact h
    · rw [h']; intro _; simp
  | logout =>
    simp only [AuthStep.apply]
    intro htok
    exact absurd (logout_localStorage st).1 htok

/-- C5: starting from an empty durable store, after any sequence of `handleLoginStart`,
`handleOTPVerify`, `loadUserProfile` and `logout` steps with arbitrary server
responses, if the durable store holds `authToken` then it holds `customerId`. -/
theorem token_implies_customer_id (steps : List AuthStep) (st : Page)
    (hempty : st.localStorage = Storage.empty) :
    (runAuth st steps).localStorage.getItem "authToken" ≠ none →
      (runAuth st steps).localStorage.getItem "customerId" ≠ none := by
  have hstart : st.localStorage.getItem "authToken" ≠ none →
      st.localStorage.getItem "customerId" ≠ none := by
    intro htok
    rw [hempty] at htok
    exact absurd rfl htok
  clear hempty
  induction steps generalizing st with
  | nil => exact hstart
  | cons step steps ih => exact ih (step.apply st) (AuthStep.apply_keeps_owner st step hstart)

/-- Witness of C5: the login scenario, from an empty durable store to a stored token. -/
theorem token_implies_customer_id_witness :
    (Page.blank Storage.empty Storage.empty).localStorage = Storage.empty ∧
    (runAuth (Page.blank Storage.empty Storage.empty)
      [AuthStep.handleLoginStart "9876500000" loginStarted,
        AuthStep.handleOTPVerify "123456"
          (Fetched.response true (Parsed.object loginVerified))]).localStorage.getItem
        "authToken" ≠ none ∧
    (runAuth (Page.blank Storage.empty Storage.empty)
      [AuthStep.handleLoginStart "9876500000" loginStarted,
        AuthStep.handleOTPVerify "123456"
          (Fetched.response true (Parsed.object loginVerified))]).localStorage.getItem
        "customerId" ≠ none :=
  ⟨rfl, by decide, token_implies_customer_id _ _ rfl (by decide)⟩

/-- C6, as amended: when the customer id that `handleOTPVerify` resolves as pending (the
in-memory `customerIdForOTP`, or else the one parsed from the durable store) is the
number `c`, and the verify response has a success status, `success = true` and a
non-empty `access_token` `t`, then `handleOTPVerify` leaves the durable store with
`authToken = t` and `customerId = String(c)`, and sets the navigation target to
`/personal-banking`; when `c` is at most `2^53` in absolute value, `String(c)` is the
decimal string of `c`. -/
theorem handleOTPVerify_commits_credentials (st : Page) (otp : String) (data : VerifyBody)
    (c : Int) (t : String) (hc : pendingCid st = some (JsNum.num c))
    (hsuccess : data.success = true) (htoken : data.access_token = some t) (hne : t ≠ "") :
    (handleOTPVerify st otp (Fetched.response true (Parsed.object data))).localStorage.getItem
      "authToken" = some t ∧
    (handleOTPVerify st otp (Fetched.response true (Parsed.object data))).localStorage.getItem
      "customerId" = some (JsNum.num c).toStr ∧
    (c.natAbs ≤ 2 ^ 53 →
      (handleOTPVerify st otp (Fetched.response true (Parsed.object data))).localStorage.getItem
        "customerId" = some (toString c)) ∧
    (handleOTPVerify st otp (Fetched.response true (Parsed.object data))).location
      = "/personal-banking" := by
  have hcond : (true && data.success && truthy data.access_token) = true := by
    simp [hsuccess, htoken, truthy, hne]
  have hcid : (handleOTPVerify st otp
      (Fetched.response true (Parsed.object data))).localStorage.getItem "customerId"
      = some (JsNum.num c).toStr := by
    simp only [handleOTPVerify, hc, hcond, if_true]
    rw [Storage.getItem_setItem_self]
  refine ⟨?_, hcid, ?_, ?_⟩
  · simp only [handleOTPVerify, hc, hcond, if_true]
    rw [Storage.getItem_setItem_ne _ _ _ _ (by decide)]
    split
    · rw [Storage.getItem_setItem_ne _ _ _ _ (by decide), Storage.getItem_setItem_self]
      simp [htoken]
    · rw [Storage.getItem_setItem_self]
      simp [htoken]
  · intro hsafe
    rw [hcid, JsNum.toStr_of_safe c hsafe]
  · simp only [handleOTPVerify, hc, hcond, if_true]

/-- Witness of C6: the scenario of the specification, customer id 42 and token
`tok_abc`. -/
theorem handleOTPVerify_commits_credentials_witness :
    (pendingCid (handleLoginStart (Page.blank Storage.empty Storage.empty) "9876500000"
        loginStarted) = some (JsNum.num 42) ∧
      loginVerified.success = true ∧ loginVerified.access_token = some "tok_abc" ∧
      "tok_abc" ≠ "" ∧ (42 : Int).natAbs ≤ 2 ^ 53) ∧
    (handleOTPVerify
      (handleLoginStart (Page.blank Storage.empty Storage.empty) "9876500000" loginStarted)
      "123456" (Fetched.response true (Parsed.object loginVerified))).localStorage.getItem
        "authToken" = some "tok_abc" ∧
    (handleOTPVerify
      (handleLoginStart (Page.blank Storage.empty Storage.empty) "9876500000" loginStarted)
      "123456" (Fetched.response true (Parsed.object loginVerified))).localStorage.getItem
        "customerId" = some "42" ∧
    (handleOTPVerify
      (handleLoginStart (Page.blank Storage.empty Storage.empty) "9876500000" loginStarted)
      "123456" (Fetched.response true (Parsed.object loginVerified))).location
        = "/personal-banking" :=
  ⟨⟨by decide, by decide, by decide, by decide, by decide⟩,
    (handleOTPVerify_commits_credentials _ "123456" loginVerified 42 "tok_abc"
      (by decide) (by decide) (by decide) (by decide)).1,
    (handleOTPVerify_commits_credentials _ "123456" loginVerified 42 "tok_abc"
      (by decide) (by decide) (by decide) (by decide)).2.2.1 (by decide),
    (handleOTPVerify_commits_credentials _ "123456" loginVerified 42 "tok_abc"
      (by decide) (by decide) (by decide) (by decide)).2.2.2⟩

/-- C6 as first stated fails at the pending customer id `10^21`: login-start returns
it, `handleOTPVerify` resolves it as pending and, on a successful verify, stores
`customerId = "1e+21"`, which is not the decimal string of `10^21`. -/
theorem handleOTPVerify_huge_id_not_decimal :
    pendingCid hugeIdPending = some (JsNum.num 1000000000000000000000) ∧
    loginVerified.success = true ∧ loginVerified.access_token = some "tok_abc" ∧
    (handleOTPVerify hugeIdPending "123456"
      (Fetched.response true (Parsed.object loginVerified))).localStorage.getItem "customerId"
      = some "1e+21" ∧
    (handleOTPVerify hugeIdPending "123456"
      (Fetched.response true (Parsed.object loginVerified))).localStorage.getItem "customerId"
      ≠ some (toString (1000000000000000000000 : Int)) := by
  decide

/-- C7: when `customerIdForOTP` still has its initial value `null` (no successful
login-start in this page) and the durable store has no `customerId`, `handleOTPVerify`
shows `Please start the login process first.` as an error, issues no request, and
leaves the durable store and the navigation target as they were. -/
theorem handleOTPVerify_requires_login_start (st : Page) (otp : String)
    (r : Fetched VerifyBody) (hmem : st.customerIdForOTP = JsNum.null)
    (hstore : st.localStorage.getItem "customerId" = none) :
    (handleOTPVerify st otp r).banner
      = some ("Please start the login process first.", "error") ∧
    (handleOTPVerify st otp r).requests = st.requests ∧
    (handleOTPVerify st otp r).localStorage = st.localStorage ∧
    (handleOTPVerify st otp r).location = st.location := by
  have hp : pendingCid st = none := by
    simp [pendingCid, hmem, hstore, JsNum.truthy, truthy]
  simp only [handleOTPVerify, hp]
  exact ⟨rfl, rfl, rfl, rfl⟩

/-- Witness of C7: a fresh page over empty stores, with a server that would accept. -/
theorem handleOTPVerify_requires_login_start_witness :
    ((Page.blank Storage.empty Storage.empty).customerIdForOTP = JsNum.null ∧
      (Page.blank Storage.empty Storage.empty).localStorage.getItem "customerId" = none) ∧
    (handleOTPVerify (Page.blank Storage.empty Storage.empty) "123456"
      (Fetched.response true (Parsed.object loginVerified))).banner
      = some ("Please start the login process first.", "error") ∧
    (handleOTPVerify (Page.blank Storage.empty Storage.empty) "123456"
      (Fetched.response true (Parsed.object loginVerified))).requests = [] ∧
    (handleOTPVerify (Page.blank Storage.empty Storage.empty) "123456"
      (Fetched.response true (Parsed.object loginVerified))).localStorage = Storage.empty ∧
    (handleOTPVerify (Page.blank Storage.empty Storage.empty) "123456"
      (Fetched.response true (Parsed.object loginVerified))).location = "" :=
  ⟨⟨rfl, rfl⟩,
    handleOTPVerify_requires_login_start (Page.blank Storage.empty Storage.empty) "123456"
      _ rfl rfl⟩

/-- C8, the code at a logged-in tab: after `logout` the durable store still holds
`refreshToken` and the tab-scoped store still holds `sessionId`; only `authToken` and
`customerId` are gone. -/
theorem logout_leaves_refresh_token_and_session :
    (logout tabLoggedIn).localStorage.getItem "authToken" = none ∧
    (logout tabLoggedIn).localStorage.getItem "customerId" = none ∧
    (logout tabLoggedIn).localStorage.getItem "refreshToken" = some "ref_abc" ∧
    (logout tabLoggedIn).sessionStorage.getItem "sessionId" = some "srv-123" := by
  decide

/-- The default of `a || d` is not empty when `d` is not. -/
theorem jsOrStr_ne_empty (a : Option String) (d : String) (hd : d ≠ "") :
    jsOrStr a d ≠ "" := by
  cases a with
  | none => simpa [jsOrStr] using hd
  | some s =>
    by_cases hs : s = ""
    · simpa [jsOrStr, hs] using hd
    · simp [jsOrStr, hs]

/-- C9: on every failing outcome of `handleLoginStart` (the `fetch` or the body parse
rejects, the status is not a success, `success` is not true) and of `handleOTPVerify`
(the same, or the `access_token` is missing), a non-empty error message is shown and
the durable store, the in-memory pending customer id and the navigation target are
exactly as before the call. -/
theorem login_failure_commits_nothing (st : Page) (identifier otp : String)
    (r₁ : Fetched LoginStartBody) (r₂ : Fetched VerifyBody) :
    (loginStartFails r₁ = true →
      (∃ msg, msg ≠ "" ∧ (handleLoginStart st identifier r₁).banner = some (msg, "error")) ∧
      (handleLoginStart st identifier r₁).localStorage = st.localStorage ∧
      (handleLoginStart st identifier r₁).customerIdForOTP = st.customerIdForOTP ∧
      (handleLoginStart st identifier r₁).location = st.location) ∧
    (verifyFails r₂ = true →
      (∃ msg, msg ≠ "" ∧ (handleOTPVerify st otp r₂).banner = some (msg, "error")) ∧
      (handleOTPVerify st otp r₂).localStorage = st.localStorage ∧
      (handleOTPVerify st otp r₂).customerIdForOTP = st.customerIdForOTP ∧
      (handleOTPVerify st otp r₂).location = st.location) := by
  constructor
  · intro hfail
    cases r₁ with
    | throws => exact ⟨⟨_, by decide, rfl⟩, rfl, rfl, rfl⟩
    | response ok body =>
      cases body with
      | throws => exact ⟨⟨_, by decide, rfl⟩, rfl, rfl, rfl⟩
      | null => exact ⟨⟨_, by decide, rfl⟩, rfl, rfl, rfl⟩
      | object data =>
        have hcond : (ok && data.success) = false := by
          cases ok <;> cases hsucc : data.success <;> simp_all [loginStartFails]
        simp only [handleLoginStart, hcond]
        exact ⟨⟨_, jsOrStr_ne_empty _ _ (by decide), rfl⟩, rfl, rfl, rfl⟩
  · intro hfail
    simp only [handleOTPVerify]
    cases pendingCid st with
    | none => exact ⟨⟨_, by decide, rfl⟩, rfl, rfl, rfl⟩
    | some cid =>
      cases r₂ with
      | throws => exact ⟨⟨_, by decide, rfl⟩, rfl, rfl, rfl⟩
      | response ok body =>
        cases body with
        | throws => exact ⟨⟨_, by decide, rfl⟩, rfl, rfl, rfl⟩
        | null => exact ⟨⟨_, by decide, rfl⟩, rfl, rfl, rfl⟩
        | object data =>
          have hcond : (ok && data.success && truthy data.access_token) = false := by
            cases ok <;> cases hsucc : data.success <;>
              cases htok : truthy data.access_token <;> simp_all [verifyFails]
          simp only [hcond]
          exact ⟨⟨_, jsOrStr_ne_empty _ _ (by decide), rfl⟩, rfl, rfl, rfl⟩

/-- Witness of C9: the server rejects the identifier with a message, and rejects the
one-time password of a pending login. -/
theorem login_failure_commits_nothing_witness :
    (loginStartFails loginRejected = true ∧ verifyFails verifyRejected = true) ∧
    (handleLoginStart tabLoggedIn "9876500000" loginRejected).banner
      = some ("Unknown customer", "error") ∧
    (handleLoginStart tabLoggedIn "9876500000" loginRejected).localStorage
      = tabLoggedIn.localStorage ∧
    (handleOTPVerify tabLoggedIn "000000" verifyRejected).banner
      = some ("Invalid OTP. Please try again.", "error") ∧
    (handleOTPVerify tabLoggedIn "000000" verifyRejected).localStorage
      = tabLoggedIn.localStorage :=
  ⟨⟨by decide, by decide⟩, by decide,
    ((login_failure_commits_nothing tabLoggedIn "9876500000" "000000" loginRejected
      verifyRejected).1 (by decide)).2.1,
    by decide,
    ((login_failure_commits_nothing tabLoggedIn "9876500000" "000000" loginRejected
      verifyRejected).2 (by decide)).2.1⟩

/-! ## Claims on the chat request -/

@[simp] theorem Page.reconcile_requests (st : Page) (sid : Option String) :
    (st.reconcile sid).requests = st.requests := by
  simp only [Page.reconcile]
  split <;> rfl

@[simp] theorem Page.reconcile_localStorage (st : Page) (sid : Option String) :
    (st.reconcile sid).localStorage = st.localStorage := by
  simp only [Page.reconcile]
  split <;> rfl

/-- A message that is not blank issues exactly one request, the chat request, whatever
the outcome of the `fetch`. -/
theorem sendMessage_requests (st : Page) (r : Fetched ChatBody)
    (hmsg : typedMessage st ≠ "") :
    (sendMessage st r).requests = st.requests ++ [chatRequest st (typedMessage st)] := by
  cases r with
  | throws => simp [sendMessage, hmsg, Page.beginSend_requests]
  | response ok body =>
    cases ok with
    | false => simp [sendMessage, hmsg, Page.beginSend_requests]
    | true =>
      cases body with
      | throws => simp [sendMessage, hmsg, Page.beginSend_requests]
      | null => simp [sendMessage, hmsg, Page.beginSend_requests]
      | object data =>
        simp only [sendMessage, hmsg, if_false]
        split <;> simp [Page.beginSend_requests]

/-- The header object of a chat request before `X-Session-Id` is set has no such
entry. -/
theorem authHeaders_no_session (st : Page) :
    Assoc.lookup "X-Session-Id"
      (Assoc.spread [("Content-Type", "application/json")] (getAuthHeaders st)) = none := by
  simp only [getAuthHeaders]
  split
  · simp [Assoc.spread, Assoc.insert, Assoc.lookup]
  · simp [Assoc.spread, Assoc.lookup]

/-- C10: for every state whose typed message is not blank and every outcome of the
`fetch`, `sendMessage` issues one request, to the chat endpoint, that carries the
current session id (the `sessionId` of the tab-scoped store if non-empty, else the
non-empty in-memory id) both in the body field `session_id` and in the header
`X-Session-Id`; when there is no current id the body field is `null` and the header is
absent. -/
theorem chat_request_carries_session_id (st : Page) (r : Fetched ChatBody)
    (hmsg : typedMessage st ≠ "") :
    ∃ (req : Request) (sid : Option String) (cid : JsNum),
      (sendMessage st r).requests = st.requests ++ [req] ∧
      req.endpoint = Endpoint.chat ∧
      req.body = Payload.chat (typedMessage st) sid cid st.currentLanguage ∧
      Assoc.lookup "X-Session-Id" req.headers = sid ∧
      (∀ s, st.sessionStorage.getItem "sessionId" = some s → s ≠ "" → sid = some s) ∧
      (∀ s, truthy (st.sessionStorage.getItem "sessionId") = false →
        st.chatSessionId = some s → s ≠ "" → sid = some s) ∧
      (truthy (st.sessionStorage.getItem "sessionId") = false →
        truthy st.chatSessionId = false → sid = none) := by
  refine ⟨chatRequest st (typedMessage st), currentSessionId st,
    (if truthy st.customerId then parseIntAuto (st.customerId.getD "") else JsNum.null),
    sendMessage_requests st r hmsg, rfl, ?_, ?_, ?_, ?_, ?_⟩
  · simp only [chatRequest]
    congr 1
    cases hcur : truthy (currentSessionId st) with
    | true => simp [jsOr, hcur]
    | false => simp [jsOr, currentSessionId_eq_none st hcur]
  · simp only [chatRequest]
    cases hcur : truthy (currentSessionId st) with
    | true =>
      simp only [if_true]
      rw [Assoc.lookup_insert_self]
      cases hsid : currentSessionId st with
      | none => simp [hsid, truthy] at hcur
      | some s => rfl
    | false =>
      simp only [Bool.false_eq_true, if_false]
      rw [authHeaders_no_session, currentSessionId_eq_none st hcur]
  · intro s hs hne
    exact currentSessionId_of_stored st s hs hne
  · intro s hstore hmem hne
    have ht : truthy (some s) = true := (truthy_some_iff s).mpr hne
    simp [currentSessionId, jsOr, hstore, hmem, ht]
  · intro hstore hmem
    simp [currentSessionId, jsOr, hstore, hmem]

/-- Witness of C10: the tab on `temp-1700000000000` sends `balance?` while the server is
unreachable. -/
theorem chat_request_carries_session_id_witness :
    typedMessage tabProvisional ≠ "" ∧
    ∃ (req : Request) (sid : Option String) (cid : JsNum),
      (sendMessage tabProvisional Fetched.throws).requests
        = tabProvisional.requests ++ [req] ∧
      req.endpoint = Endpoint.chat ∧
      req.body = Payload.chat (typedMessage tabProvisional) sid cid
        tabProvisional.currentLanguage ∧
      Assoc.lookup "X-Session-Id" req.headers = sid ∧
      (∀ s, tabProvisional.sessionStorage.getItem "sessionId" = some s → s ≠ "" →
        sid = some s) ∧
      (∀ s, truthy (tabProvisional.sessionStorage.getItem "sessionId") = false →
        tabProvisional.chatSessionId = some s → s ≠ "" → sid = some s) ∧
      (truthy (tabProvisional.sessionStorage.getItem "sessionId") = false →
        truthy tabProvisional.chatSessionId = false → sid = none) :=
  ⟨by decide, chat_request_carries_session_id tabProvisional Fetched.throws (by decide)⟩

/-! ## Claims on the kept session id -/

/-- C11: when the chat exchange fails (the `fetch` rejects, the status is not a success,
the body does not parse) or the response carries no non-empty `session_id`, the
tab-scoped store after `sendMessage` is the one before it; in particular its `sessionId`
entry is unchanged. -/
theorem sendMessage_failure_keeps_stored_id (st : Page) (r : Fetched ChatBody)
    (hfail : chatSuppliesNoId r = true) :
    (sendMessage st r).sessionStorage.getItem "sessionId"
      = st.sessionStorage.getItem "sessionId" ∧
    (sendMessage st r).sessionStorage = st.sessionStorage := by
  have hsame : (sendMessage st r).sessionStorage = st.sessionStorage := by
    rcases sendMessage_sessionStorage st r with h | ⟨data, s, hr, hsid, hs, _⟩
    · exact h
    · subst hr
      simp [chatSuppliesNoId, hsid, truthy, hs] at hfail
  exact ⟨by rw [hsame], hsame⟩

/-- Witness of C11: the tab on `temp-1700000000000` sends `balance?` and the server
answers with an error status. -/
theorem sendMessage_failure_keeps_stored_id_witness :
    chatSuppliesNoId (Fetched.response false Parsed.throws) = true ∧
    (sendMessage tabProvisional (Fetched.response false Parsed.throws)).sessionStorage.getItem
      "sessionId" = some "temp-1700000000000" :=
  ⟨by decide,
    (sendMessage_failure_keeps_stored_id tabProvisional (Fetched.response false Parsed.throws)
      (by decide)).1⟩

/-- The agreement of memory and store, spelled out. -/
theorem sessionInSync_iff (st : Page) :
    sessionInSync st = true ↔
      ∃ s, s ≠ "" ∧ st.chatSessionId = some s ∧ st.windowSessionId = some s ∧
        st.sessionStorage.getItem "sessionId" = some s := by
  constructor
  · intro h
    simp only [sessionInSync, Bool.and_eq_true, beq_iff_eq] at h
    obtain ⟨⟨ht, hstore⟩, hwin⟩ := h
    cases hc : st.chatSessionId with
    | none => simp [hc, truthy] at ht
    | some s =>
      refine ⟨s, ?_, rfl, ?_, ?_⟩
      · simpa [hc, truthy] using ht
      · rw [hwin, hc]
      · rw [hstore, hc]
  · rintro ⟨s, hne, hc, hw, hstore⟩
    simp [sessionInSync, hc, hw, hstore, truthy, hne]

/-- The session state after `sendMessage` of a message that is not blank, whatever the
outcome of the `fetch`: a non-empty id of the server is in memory, on `window` and in the
store, or the store and `window` are untouched and memory holds the id of line 125. -/
theorem sendMessage_session_cases (st : Page) (r : Fetched ChatBody)
    (hmsg : typedMessage st ≠ "") :
    (∃ s, s ≠ "" ∧ (sendMessage st r).chatSessionId = some s ∧
      (sendMessage st r).windowSessionId = some s ∧
      (sendMessage st r).sessionStorage = st.sessionStorage.setItem "sessionId" s) ∨
    ((sendMessage st r).chatSessionId = currentSessionId st ∧
      (sendMessage st r).windowSessionId = st.windowSessionId ∧
      (sendMessage st r).sessionStorage = st.sessionStorage) := by
  cases r with
  | throws => right; simp [sendMessage, hmsg]
  | response ok body =>
    cases ok with
    | false => right; simp [sendMessage, hmsg]
    | true =>
      cases body with
      | throws => right; simp [sendMessage, hmsg]
      | null => right; simp [sendMessage, hmsg]
      | object data =>
        rcases sendMessage_ok_session st data hmsg with ⟨ht, _, h1, h2, h3⟩ | ⟨_, h1, h2, h3⟩
        · left
          cases hsid : data.session_id with
          | none => simp [hsid, truthy] at ht
          | some s =>
            refine ⟨s, ?_, ?_, ?_, ?_⟩
            · simpa [hsid, truthy] using ht
            · rw [h1, hsid]
            · rw [h2, hsid]
            · rw [h3, hsid]; rfl
        · right; exact ⟨h1, h2, h3⟩

/-- Whatever the state before and whichever branch is taken, `ensureSession` ends with
memory and store in agreement. -/
theorem ensureSession_inSync (st : Page) (r : Fetched SessionBody) (now : Nat) :
    sessionInSync (ensureSession st r now) = true := by
  rw [sessionInSync_iff]
  cases hstored : st.sessionStorage.getItem "sessionId" with
  | none =>
    cases r with
    | throws =>
      exact ⟨_, temp_ne_empty now, by simp [ensureSession, hstored, truthy, Page.useTemporary]⟩
    | response ok body =>
      cases ok with
      | false =>
        exact ⟨_, temp_ne_empty now,
          by simp [ensureSession, hstored, truthy, Page.useTemporary]⟩
      | true =>
        cases body with
        | throws =>
          exact ⟨_, temp_ne_empty now,
            by simp [ensureSession, hstored, truthy, Page.useTemporary]⟩
        | null =>
          exact ⟨_, temp_ne_empty now,
            by simp [ensureSession, hstored, truthy, Page.useTemporary]⟩
        | object data =>
          cases hsid : data.session_id with
          | none =>
            exact ⟨_, temp_ne_empty now,
              by simp [ensureSession, hstored, hsid, truthy, Page.useTemporary]⟩
          | some s =>
            by_cases hs : s = ""
            · exact ⟨_, temp_ne_empty now,
                by simp [ensureSession, hstored, hsid, hs, truthy, Page.useTemporary]⟩
            · exact ⟨s, hs, by simp [ensureSession, hstored, hsid, hs, truthy, Page.fetch]⟩
  | some S =>
    by_cases hS : S = ""
    · subst hS
      cases r with
      | throws =>
        exact ⟨_, temp_ne_empty now, by simp [ensureSession, hstored, truthy, Page.useTemporary]⟩
      | response ok body =>
        cases ok with
        | false =>
          exact ⟨_, temp_ne_empty now,
            by simp [ensureSession, hstored, truthy, Page.useTemporary]⟩
        | true =>
          cases body with
          | throws =>
            exact ⟨_, temp_ne_empty now,
              by simp [ensureSession, hstored, truthy, Page.useTemporary]⟩
          | null =>
            exact ⟨_, temp_ne_empty now,
              by simp [ensureSession, hstored, truthy, Page.useTemporary]⟩
          | object data =>
            cases hsid : data.session_id with
            | none =>
              exact ⟨_, temp_ne_empty now,
                by simp [ensureSession, hstored, hsid, truthy, Page.useTemporary]⟩
            | some s =>
              by_cases hs : s = ""
              · exact ⟨_, temp_ne_empty now,
                  by simp [ensureSession, hstored, hsid, hs, truthy, Page.useTemporary]⟩
              · exact ⟨s, hs, by simp [ensureSession, hstored, hsid, hs, truthy, Page.fetch]⟩
    · exact ⟨S, hS, by simp [ensureSession, hstored, hS, truthy]⟩

/-- Each step of the chat widget keeps memory and store in agreement. -/
theorem ChatStep.apply_keeps_inSync (st : Page) (step : ChatStep)
    (h : sessionInSync st = true) : sessionInSync (step.apply st) = true := by
  cases step with
  | ensureSession r now => exact ensureSession_inSync st r now
  | logout =>
    rw [sessionInSync_iff] at h ⊢
    exact h
  | sendMessage typed r =>
    rw [sessionInSync_iff] at h ⊢
    obtain ⟨s, hne, hc, hw, hstore⟩ := h
    simp only [ChatStep.apply]
    by_cases hblank : typedMessage { st with chatInput := typed } = ""
    · rw [sendMessage_blank _ _ hblank]
      exact ⟨s, hne, hc, hw, hstore⟩
    · rcases sendMessage_session_cases { st with chatInput := typed } r hblank with
        ⟨s', hne', h1, h2, h3⟩ | ⟨h1, h2, h3⟩
      · exact ⟨s', hne', h1, h2, by rw [h3]; exact Storage.getItem_setItem_self _ _ _⟩
      · have hcur : currentSessionId { st with chatInput := typed } = some s :=
          currentSessionId_of_stored _ s hstore hne
        exact ⟨s, hne, by rw [h1, hcur], by rw [h2]; exact hw, by rw [h3]; exact hstore⟩

/-- C13: after `ensureSession`, whichever branch it took (reuse, server-created or
provisional fallback), the in-memory id (`this.sessionId`, and `window.sessionId` with
it) is a non-empty string equal to the `sessionId` entry of the tab-scoped store; and
after any sequence of later steps, in particular of `sendMessage` calls with any typed
text and any server response or failure, this still holds. -/
theorem ensureSession_sync_is_preserved (st : Page) (r : Fetched SessionBody) (now : Nat)
    (steps : List ChatStep) :
    (∃ s, s ≠ "" ∧ (ensureSession st r now).chatSessionId = some s ∧
      (ensureSession st r now).windowSessionId = some s ∧
      (ensureSession st r now).sessionStorage.getItem "sessionId" = some s) ∧
    ∃ s, s ≠ "" ∧ (runChat (ensureSession st r now) steps).chatSessionId = some s ∧
      (runChat (ensureSession st r now) steps).windowSessionId = some s ∧
      (runChat (ensureSession st r now) steps).sessionStorage.getItem "sessionId" = some s := by
  have hstart := ensureSession_inSync st r now
  refine ⟨(sessionInSync_iff _).mp hstart, (sessionInSync_iff _).mp ?_⟩
  generalize ensureSession st r now = st₀ at hstart
  induction steps generalizing st₀ with
  | nil => exact hstart
  | cons step steps ih => exact ih (step.apply st₀) (ChatStep.apply_keeps_inSync st₀ step hstart)

/-! ## Claims on the masked account number -/

/-- The slice `slice(-4)` of a string of four code units or more is its last four code
units. -/
theorem jsSlice_last_four (a : List Nat) (h : 4 ≤ a.length) :
    jsSlice a (-4) = a.drop (a.length - 4) := by
  have hk : (max ((a.length : Int) + -4) 0).toNat = a.length - 4 := by
    rw [max_eq_left (by omega)]
    omega
  simp only [jsSlice, show ((-4 : Int) < 0) by decide, if_true, hk]

/-- The masked form of a string of four code units or more. -/
theorem maskAccountNumber_long (a : List Nat) (h : 4 ≤ a.length) :
    maskAccountNumber (some a) = utf16 "****" ++ a.drop (a.length - 4) := by
  have hne : a.isEmpty = false := by
    cases a with
    | nil => exact absurd h (by decide)
    | cons x xs => rfl
  have hlt : decide (a.length < 4) = false := by
    simp only [decide_eq_false_iff_not]
    omega
  simp only [maskAccountNumber, hne, hlt, Bool.or_self, Bool.false_eq_true, if_false,
    jsSlice_last_four a h]

/-- The masked form of a string of fewer than four code units. -/
theorem maskAccountNumber_short (a : List Nat) (h : a.length < 4) :
    maskAccountNumber (some a) = utf16 "****" := by
  simp [maskAccountNumber, h]

/-- C14, as amended: for every string `a`, taken as the sequence of its UTF-16 code
units, `maskAccountNumber(a)` is `****` when `a` has fewer than four code units (the
empty string included), and otherwise is `****` followed by exactly the last four code
units of `a`: whenever `a` is some text followed by four code units, the result is
`****` and those four, whatever the text before them.  So the result is four or eight
code units long. -/
theorem maskAccountNumber_shows_last_four (a : List Nat) :
    (a.length < 4 → maskAccountNumber (some a) = utf16 "****") ∧
    (4 ≤ a.length →
      maskAccountNumber (some a) = utf16 "****" ++ a.drop (a.length - 4) ∧
      (a.drop (a.length - 4)).length = 4) ∧
    (∀ before last : List Nat, last.length = 4 → a = before ++ last →
      maskAccountNumber (some a) = utf16 "****" ++ last) ∧
    ((maskAccountNumber (some a)).length = 4 ∨ (maskAccountNumber (some a)).length = 8) := by
  have hstars : (utf16 "****").length = 4 := by decide
  refine ⟨maskAccountNumber_short a, ?_, ?_, ?_⟩
  · intro h
    refine ⟨maskAccountNumber_long a h, ?_⟩
    rw [List.length_drop]
    omega
  · intro before last hlast hsplit
    have h4 : 4 ≤ a.length := by
      rw [hsplit, List.length_append]
      omega
    have hdrop : a.drop (a.length - 4) = last := by
      have hb : a.length - 4 = before.length := by
        rw [hsplit, List.length_append]
        omega
      rw [hb, hsplit, List.drop_left]
    rw [maskAccountNumber_long a h4, hdrop]
  · by_cases h : a.length < 4
    · left
      rw [maskAccountNumber_short a h]
      exact hstars
    · right
      have h4 : 4 ≤ a.length := by omega
      rw [maskAccountNumber_long a h4, List.length_append, hstars, List.length_drop]
      omega

/-- Witness of C14: a ten-digit account number, and the placeholder `N/A` that
`loadAccounts` passes for a missing number. -/
theorem maskAccountNumber_shows_last_four_witness :
    ((utf16 "N/A").length < 4 ∧ 4 ≤ (utf16 "1234567890").length) ∧
    maskAccountNumber (some (utf16 "N/A")) = utf16 "****" ∧
    maskAccountNumber (some (utf16 "1234567890")) = utf16 "****7890" :=
  ⟨⟨by decide, by decide⟩,
    (maskAccountNumber_shows_last_four (utf16 "N/A")).1 (by decide),
    ((maskAccountNumber_shows_last_four (utf16 "1234567890")).2.1 (by decide)).1⟩

/-- C14 as first stated, with characters, fails outside the basic plane.  The string
`a😀b` has three characters, yet it is not masked to `****`: it has four code units and
is shown whole.  The string `12😀456` is masked to `****` followed by the second half
of the surrogate pair of `😀` and `456`, which is not `****` followed by its last four
characters `😀456`. -/
theorem maskAccountNumber_counts_code_units :
    astralShort.length = 3 ∧
    maskAccountNumber (some (utf16 astralShort)) = utf16 "****" ++ utf16 astralShort ∧
    maskAccountNumber (some (utf16 astralShort)) ≠ utf16 "****" ∧
    astralLong.length = 6 ∧
    maskAccountNumber (some (utf16 astralLong)) = utf16 "****" ++ [56832, 52, 53, 54] ∧
    maskAccountNumber (some (utf16 astralLong))
      ≠ utf16 "****" ++ utf16 ⟨astralLong.data.drop (astralLong.length - 4)⟩ := by
  decide

/-! ## Printing and parsing a customer id -/

theorem digitOf_digitChar (d : Nat) (h : d < 10) : digitOf 10 (Nat.digitChar d) = some d := by
  interval_cases d <;> decide

theorem isJsSpace_digitChar (d : Nat) (h : d < 10) : isJsSpace (Nat.digitChar d) = false := by
  interval_cases d <;> decide

theorem splitSign_digitChar (d : Nat) (h : d < 10) (cs : List Char) :
    splitSign (Nat.digitChar d :: cs) = (false, Nat.digitChar d :: cs) := by
  interval_cases d <;> rfl

theorem digitsValue_snoc (radix : Nat) (ds : List Nat) (d : Nat) :
    digitsValue radix (ds ++ [d]) = radix * digitsValue radix ds + d := by
  simp [digitsValue, List.foldl_append]

/-- A run of decimal digit characters is read back digit by digit. -/
theorem leadingDigits_map_digitChar (ds : List Nat) (h : ∀ d ∈ ds, d < 10) :
    leadingDigits 10 (ds.map Nat.digitChar) = ds := by
  induction ds with
  | nil => rfl
  | cons d ds ih =>
    have hd : d < 10 := h d (List.mem_cons_self _ _)
    have hds : ∀ x ∈ ds, x < 10 := fun x hx => h x (List.mem_cons_of_mem _ hx)
    simp [leadingDigits, digitOf_digitChar d hd, ih hds]

/-- With enough fuel, `Nat.toDigitsCore` puts in front of its accumulator the characters
of a non-empty run of decimal digits whose value is the number. -/
theorem toDigitsCore_digits (fuel : Nat) :
    ∀ n, n < fuel → ∃ ds : List Nat, ds ≠ [] ∧ (∀ d ∈ ds, d < 10) ∧
      digitsValue 10 ds = n ∧
      ∀ acc, Nat.toDigitsCore 10 fuel n acc = ds.map Nat.digitChar ++ acc := by
  induction fuel with
  | zero => intro n hn; exact absurd hn (Nat.not_lt_zero n)
  | succ fuel ih =>
    intro n hn
    by_cases hq : n / 10 = 0
    · refine ⟨[n % 10], by simp, ?_, ?_, ?_⟩
      · intro d hd
        rw [List.mem_singleton] at hd
        rw [hd]
        exact Nat.mod_lt _ (by decide)
      · simp only [digitsValue, List.foldl_cons, List.foldl_nil]
        omega
      · intro acc
        simp [Nat.toDigitsCore, hq]
    · have hlt : n / 10 < fuel := by omega
      obtain ⟨ds, hne, hdig, hval, hcore⟩ := ih (n / 10) hlt
      refine ⟨ds ++ [n % 10], by simp, ?_, ?_, ?_⟩
      · intro d hd
        rcases List.mem_append.mp hd with hd | hd
        · exact hdig d hd
        · rw [List.mem_singleton] at hd
          rw [hd]
          exact Nat.mod_lt _ (by decide)
      · rw [digitsValue_snoc, hval]
        omega
      · intro acc
        simp [Nat.toDigitsCore, hq, hcore]

/-- Parsing the decimal string of a natural number gives the double nearest to it. -/
theorem parseInt10_toString_nat (n : Nat) : parseInt10 (toString n) = JsNum.ofInt n := by
  obtain ⟨ds, hne, hdig, hval, hcore⟩ := toDigitsCore_digits (n + 1) n (Nat.lt_succ_self n)
  have hdata : (toString n).data = ds.map Nat.digitChar := by
    rw [toString_nat_data, Nat.toDigits, hcore []]
    simp
  cases ds with
  | nil => exact absurd rfl hne
  | cons d ds =>
    have hd : d < 10 := hdig d (List.mem_cons_self _ _)
    have hlead := leadingDigits_map_digitChar (d :: ds) hdig
    simp only [List.map_cons] at hdata hlead
    simp only [parseInt10, hdata, List.dropWhile_cons, isJsSpace_digitChar d hd,
      Bool.false_eq_true, if_false, splitSign_digitChar d hd, parseDigits, hlead, hval]

/-- Parsing the decimal string of a negative number gives the double nearest to it. -/
theorem parseInt10_toString_negSucc (m : Nat) :
    parseInt10 (toString (Int.negSucc m)) = JsNum.ofInt (Int.negSucc m) := by
  obtain ⟨ds, hne, hdig, hval, hcore⟩ :=
    toDigitsCore_digits (m + 1 + 1) (m + 1) (Nat.lt_succ_self _)
  have hdata : (toString (Int.negSucc m)).data = '-' :: ds.map Nat.digitChar := by
    show ("-" ++ toString (m + 1)).data = _
    rw [String.data_append, toString_nat_data, Nat.toDigits, hcore []]
    simp
  cases ds with
  | nil => exact absurd rfl hne
  | cons d ds =>
    have hlead := leadingDigits_map_digitChar (d :: ds) hdig
    simp only [List.map_cons] at hdata hlead
    have hspace : isJsSpace '-' = false := by decide
    simp only [parseInt10, hdata, List.dropWhile_cons, hspace, Bool.false_eq_true, if_false,
      splitSign, parseDigits, hlead, hval, if_true]
    rfl

/-- Parsing (base 10) the decimal string of an integer gives the double nearest to it. -/
theorem parseInt10_toString (c : Int) : parseInt10 (toString c) = JsNum.ofInt c := by
  cases c with
  | ofNat n => exact parseInt10_toString_nat n
  | negSucc m => exact parseInt10_toString_negSucc m

/-- Parsing (base 10) the decimal string of an integer up to `2^53` in absolute value
gives the integer back. -/
theorem parseInt10_toString_of_safe (c : Int) (h : c.natAbs ≤ 2 ^ 53) :
    parseInt10 (toString c) = JsNum.num c := by
  rw [parseInt10_toString, JsNum.ofInt_of_safe c h]

theorem toString_int_ne_empty (c : Int) : toString c ≠ "" := by
  intro h
  have hparse := parseInt10_toString c
  rw [h] at hparse
  have hnan : parseInt10 "" = JsNum.nan := by decide
  rw [hnan, JsNum.ofInt] at hparse
  split at hparse <;> exact JsNum.noConfusion hparse

/-- The pending id is the in-memory one when that is a non-zero number. -/
theorem pendingCid_of_memory (st : Page) (c : Int) (hmem : st.customerIdForOTP = JsNum.num c)
    (hc : c ≠ 0) : pendingCid st = some (JsNum.num c) := by
  simp [pendingCid, hmem, JsNum.truthy, hc]

/-- The pending id is parsed from the durable store when the in-memory one is falsy. -/
theorem pendingCid_of_stored (st : Page) (c : Int) (hsafe : c.natAbs ≤ 2 ^ 53)
    (hmem : st.customerIdForOTP.truthy = false)
    (hstore : st.localStorage.getItem "customerId" = some (toString c)) :
    pendingCid st = some (JsNum.num c) := by
  have ht : truthy (some (toString c)) = true :=
    (truthy_some_iff _).mpr (toString_int_ne_empty c)
  simp [pendingCid, hmem, hstore, ht, parseInt10_toString_of_safe c hsafe]

/-- The request that `handleOTPVerify` issues carries the pending customer id. -/
theorem handleOTPVerify_requests (st : Page) (otp : String) (r : Fetched VerifyBody)
    (cid : JsNum) (hcid : pendingCid st = some cid) :
    (handleOTPVerify st otp r).requests = st.requests ++
      [{ endpoint := Endpoint.loginVerify, method := "POST",
         headers := [("Content-Type", "application/json")], credentials := true,
         body := Payload.loginVerify cid otp }] := by
  simp only [handleOTPVerify, hcid]
  cases r with
  | throws => rfl
  | response ok body =>
    cases body with
    | throws => rfl
    | null => rfl
    | object data =>
      dsimp only
      split <;> rfl

/-- C12, as amended: for every integer customer id `c` of absolute value at most `2^53`
returned by a successful login-start, `handleLoginStart` persists the decimal string of
`c` under `customerId`, parsing that string in base 10 gives back `c`, and the
`customer_id` that `handleOTPVerify` sends is `c` both on the page where the in-memory
pending id is still set and on a reloaded page, where the in-memory id is `null` again
and the durable store is the one that `handleLoginStart` left. -/
theorem otp_customer_id_survives_reload (st reloaded : Page) (identifier otp : String)
    (body : LoginStartBody) (c : Int) (r : Fetched VerifyBody)
    (hsafe : c.natAbs ≤ 2 ^ 53)
    (hsuccess : body.success = true) (hc : body.customer_id = some c)
    (hmem : reloaded.customerIdForOTP = JsNum.null)
    (hstore : reloaded.localStorage
      = (handleLoginStart st identifier (Fetched.response true (Parsed.object body))).localStorage) :
    (handleLoginStart st identifier
      (Fetched.response true (Parsed.object body))).localStorage.getItem "customerId"
      = some (toString c) ∧
    parseInt10 (toString c) = JsNum.num c ∧
    (handleOTPVerify
        (handleLoginStart st identifier (Fetched.response true (Parsed.object body))) otp r).requests
      = (handleLoginStart st identifier (Fetched.response true (Parsed.object body))).requests ++
        [{ endpoint := Endpoint.loginVerify, method := "POST",
           headers := [("Content-Type", "application/json")], credentials := true,
           body := Payload.loginVerify (JsNum.num c) otp }] ∧
    (handleOTPVerify reloaded otp r).requests
      = reloaded.requests ++
        [{ endpoint := Endpoint.loginVerify, method := "POST",
           headers := [("Content-Type", "application/json")], credentials := true,
           body := Payload.loginVerify (JsNum.num c) otp }] := by
  have hfield : fieldNum body.customer_id = JsNum.num c := by
    rw [hc, fieldNum, JsNum.ofInt_of_safe c hsafe]
  have hmem₁ : (handleLoginStart st identifier
      (Fetched.response true (Parsed.object body))).customerIdForOTP = JsNum.num c := by
    simp [handleLoginStart, hsuccess, hfield, showMessage]
  have hstore₁ : (handleLoginStart st identifier
      (Fetched.response true (Parsed.object body))).localStorage.getItem "customerId"
      = some (toString c) := by
    simp [handleLoginStart, hsuccess, hfield, showMessage, JsNum.toStr_of_safe c hsafe]
  refine ⟨hstore₁, parseInt10_toString_of_safe c hsafe, ?_, ?_⟩
  · apply handleOTPVerify_requests
    by_cases h0 : c = 0
    · apply pendingCid_of_stored _ c hsafe _ hstore₁
      rw [hmem₁, h0]
      rfl
    · exact pendingCid_of_memory _ c hmem₁ h0
  · apply handleOTPVerify_requests
    apply pendingCid_of_stored reloaded c hsafe
    · rw [hmem]; rfl
    · rw [hstore]; exact hstore₁

/-- Witness of C12: login-start returns customer id 42 and the page is reloaded over the
same durable store before the one-time password is entered. -/
theorem otp_customer_id_survives_reload_witness :
    ((42 : Int).natAbs ≤ 2 ^ 53 ∧
      loginStartedBody.success = true ∧ loginStartedBody.customer_id = some 42 ∧
      loginPageReloaded.customerIdForOTP = JsNum.null ∧
      loginPageReloaded.localStorage
        = (handleLoginStart (Page.blank Storage.empty Storage.empty) "9876500000"
            (Fetched.response true (Parsed.object loginStartedBody))).localStorage) ∧
    (handleOTPVerify loginPageReloaded "123456"
        (Fetched.response true (Parsed.object loginVerified))).requests
      = [{ endpoint := Endpoint.loginVerify, method := "POST",
           headers := [("Content-Type", "application/json")], credentials := true,
           body := Payload.loginVerify (JsNum.num 42) "123456" }] :=
  ⟨⟨by decide, by decide, by decide, by decide, by decide⟩,
    (otp_customer_id_survives_reload (Page.blank Storage.empty Storage.empty)
      loginPageReloaded "9876500000" "123456" loginStartedBody 42
      (Fetched.response true (Parsed.object loginVerified)) (by decide) (by decide)
      (by decide) (by decide) (by decide)).2.2.2⟩

/-- C12 as first stated fails above `2^53`.  A login-start that returns the customer id
`10^21` persists `"1e+21"`, which parses to 1, so after a reload `handleOTPVerify` sends
the customer id 1.  A login-start that returns `2^53 + 1` holds `2^53` in memory, so
even without a reload `handleOTPVerify` sends `2^53`. -/
theorem otp_customer_id_lost_above_safe_range :
    hugeIdBody.success = true ∧ hugeIdBody.customer_id = some 1000000000000000000000 ∧
    hugeIdPending.localStorage.getItem "customerId" = some "1e+21" ∧
    parseInt10 "1e+21" = JsNum.num 1 ∧
    hugeIdReloaded.customerIdForOTP = JsNum.null ∧
    hugeIdReloaded.localStorage = hugeIdPending.localStorage ∧
    (handleOTPVerify hugeIdReloaded "123456"
        (Fetched.response true (Parsed.object loginVerified))).requests
      = [{ endpoint := Endpoint.loginVerify, method := "POST",
           headers := [("Content-Type", "application/json")], credentials := true,
           body := Payload.loginVerify (JsNum.num 1) "123456" }] ∧
    JsNum.num 1 ≠ JsNum.num 1000000000000000000000 ∧
    unsafeIdBody.success = true ∧ unsafeIdBody.customer_id = some 9007199254740993 ∧
    (handleOTPVerify
        (handleLoginStart (Page.blank Storage.empty Storage.empty) "9876500000"
          (Fetched.response true (Parsed.object unsafeIdBody)))
        "123456" (Fetched.response true (Parsed.object loginVerified))).requests
      = [{ endpoint := Endpoint.loginStart, method := "POST",
           headers := [("Content-Type", "application/json")], credentials := true,
           body := Payload.loginStart "9876500000" },
         { endpoint := Endpoint.loginVerify, method := "POST",
           headers := [("Content-Type", "application/json")], credentials := true,
           body := Payload.loginVerify (JsNum.num 9007199254740992) "123456" }] ∧
    JsNum.num 9007199254740992 ≠ JsNum.num 9007199254740993 := by
  decide

end TrustUnionBank
